import Mathlib

/-!
# Equalizer: session identifier allocation, object registration and packet dispatch

A shallow embedding of `src/net/session.cpp` (class `eqNet::Session`).

Conventions of the embedding:

* `uint32_t` values are natural numbers; the one narrowing cast of the file
  (`(uint32_t)(long long)` applied to the pointer-sized result of `waitRequest`) is an explicit
  `% 2 ^ 32`.
* Pointers (`Object*`, `Node*`) are addresses, natural numbers, `0` being `NULL`. The fields of
  the objects a session writes through such a pointer live in a heap, `Heap`.
* A call that blocks on another thread (`waitRequest`) takes as an argument the values that
  thread serves the requests with, by request id, and reads the one of its own request.
* A packet handed to `_server->send` is appended to the field `sent` of the session; a handler
  invoked by `dispatchPacket` is recorded in the list of `Handled` entries the call returns.
* Classes and macros used by `session.cpp` whose source is not part of the repository excerpt
  (`IDPool`, `RequestHandler`, `ASSERT`, `INVALID_ID`) are modelled from the specification or
  taken as a parameter; each such definition says so.
-/

namespace eqNet

/-! ## Constants -/

/-- Modelled from the spec: the constant `INVALID_ID`, declared in a header that is not among
the sources. The specification reserves `0` as the invalid identifier, and `Session::genIDs`
tests its result against zero. -/
def INVALID_ID : Nat := 0

/-- The policy constant `#define MIN_ID_RANGE 1024`. -/
def MIN_ID_RANGE : Nat := 1024

/-- Number of values of a `uint32_t`. -/
def UINT32_SIZE : Nat := 2 ^ 32

/-! ## Identifier pool -/

/-- Modelled from the spec: the identifier pool (`_idPool`, class `IDPool`), whose source is
not among the sources. The specification describes it as allocating and freeing contiguous
ranges of identifiers from a bounded capacity. Its state is the capacity and the set of
identifiers that are currently free. -/
structure IdPool where
  /-- The capacity the pool was created with (`getCapacity`). -/
  capacity : Nat
  /-- The identifiers that are free, that is, available for allocation. -/
  free : Finset Nat
deriving DecidableEq

namespace IdPool

/-- Modelled from the spec: an empty pool of the given capacity, in which nothing is allocated:
the identifiers `1, ..., capacity` are free (`0` is the invalid identifier). -/
def create (capacity : Nat) : IdPool :=
  { capacity := capacity, free := Finset.Icc 1 capacity }

/-- Modelled from the spec: `IDPool::getCapacity`. -/
def getCapacity (p : IdPool) : Nat := p.capacity

/-- Modelled from the spec: the possible results of an allocation of `range` identifiers: the
non-zero free identifiers `s` such that the whole block `[s, s + range)` is free. -/
def candidates (p : IdPool) (range : Nat) : Finset Nat :=
  p.free.filter (fun s => s ≠ 0 ∧ ∀ i, i < range → s + i ∈ p.free)

/-- Modelled from the spec: `IDPool::genIDs`, the contract `allocate(range)` of the
specification restricted to the local pool: on success it returns the first identifier of a
block of `range` contiguous free identifiers (the lowest such block, as in the scenario of
the specification where a pool of capacity 100 hands out 1 and then 2) and takes the block out
of the free set; when no such block exists it returns the invalid identifier `0` and leaves
the pool as it was. -/
def genIDs (p : IdPool) (range : Nat) : Nat × IdPool :=
  if h : (p.candidates range).Nonempty then
    let start := (p.candidates range).min' h
    (start, { p with free := p.free \ Finset.Ico start (start + range) })
  else
    (0, p)

/-- Modelled from the spec: `IDPool::freeIDs`, the contract `free(start, range)`: the block
`[start, start + range)` is returned to the pool. -/
def freeIDs (p : IdPool) (start range : Nat) : IdPool :=
  { p with free := p.free ∪ Finset.Ico start (start + range) }

end IdPool

/-! ## Pending requests -/

/-- Modelled from the spec: the pending-request table (`_requestHandler`, class
`RequestHandler`), whose source is not among the sources: the request ids a thread is waiting
on. -/
structure RequestHandler where
  /-- The ids of the registered requests that have not been waited for yet. -/
  requests : List Nat
deriving DecidableEq

namespace RequestHandler

/-- Modelled from the spec: `RequestHandler::registerRequest`: generates a request id that no
pending request carries and registers it. -/
def registerRequest (h : RequestHandler) : Nat × RequestHandler :=
  (h.requests.foldr max 0 + 1, { requests := (h.requests.foldr max 0 + 1) :: h.requests })

/-- Modelled from the spec: `RequestHandler::waitRequest( requestID )`: suspends the caller
until the request `requestID` is served, returns the value that request is served with and
retires the request. `reply` gives, for every request id, the pointer-sized value the request
with that id is served with while the caller is suspended; the call reads the value under
`requestID` and no other. -/
def waitRequest (h : RequestHandler) (requestID : Nat) (reply : Nat → Nat) :
    Nat × RequestHandler :=
  (reply requestID, { requests := h.requests.erase requestID })

end RequestHandler

/-! ## Packets, objects and the session -/

/-- The packet `SessionGenIDsPacket` sent by a slave session to its master: the argument of the
packet constructor, the request id and the requested range. -/
structure SessionGenIDsPacket where
  /-- The argument `Session::genIDs` passes to the packet constructor. -/
  sessionID : Nat
  /-- Field `requestID`. -/
  requestID : Nat
  /-- Field `range`. -/
  range : Nat
deriving DecidableEq, Repr

/-- The fields of `eqNet::Object` that a session writes: `_id` and `_sessionID`. -/
structure Object where
  /-- Field `_id`, read by `getID`. -/
  id : Nat
  /-- Field `_sessionID`. -/
  sessionID : Nat
deriving DecidableEq, Repr

/-- The objects of the program, by address. -/
abbrev Heap := Nat → Object

/-- The state of an `eqNet::Session`. -/
structure Session where
  /-- Field `_id`. -/
  id : Nat
  /-- Field `_server`, the address of the node of the master session (`0` is `NULL`). -/
  server : Nat
  /-- Field `_isMaster`. -/
  isMaster : Bool
  /-- Field `_idPool`. -/
  idPool : IdPool
  /-- Field `_requestHandler`. -/
  requestHandler : RequestHandler
  /-- Field `_registeredObjects`, a map from identifier to `Object*`: `none` when the map has
  no entry for the key, `some 0` when it has an entry that holds `NULL`. -/
  registeredObjects : Nat → Option Nat
  /-- The packets handed to `_server->send`, oldest first. -/
  sent : List SessionGenIDsPacket

/-- The values of the field `datatype` of a packet header that `dispatchPacket` tells apart. -/
inductive Datatype where
  /-- The value `DATATYPE_EQNET_SESSION`. -/
  | EQNET_SESSION
  /-- The value `DATATYPE_EQNET_OBJECT`. -/
  | EQNET_OBJECT
  /-- Any other value of the field. -/
  | other (value : Nat)
deriving DecidableEq, Repr

/-- A packet as `dispatchPacket` reads it: the `datatype` of the header, the command, and the
field `objectID` read through the cast to `ObjectPacket*`. -/
structure Packet where
  /-- Field `datatype`. -/
  datatype : Datatype
  /-- Field `command`. -/
  command : Nat
  /-- Field `objectID` of an `ObjectPacket`. -/
  objectID : Nat
deriving DecidableEq, Repr

/-- One invocation of a command handler by `dispatchPacket`. -/
inductive Handled where
  /-- The session's own `handleCommand( node, packet )`. -/
  | session (node : Nat) (packet : Packet)
  /-- The call `object->handleCommand( node, objPacket )` on the object at address `object`. -/
  | object (object : Nat) (node : Nat) (packet : Packet)
deriving DecidableEq, Repr

/-- The macro `ASSERT`, whose definition is not among the sources, is taken as a parameter:
`fatal` says whether a failed assertion aborts the process or is only logged, after which
execution continues. The sources allow for both: `dispatchPacket` logs an error, asserts and
then returns, so its code after the assertion deals with the case in which the assertion
failed. A call that aborts has no result, `none`. -/
def ASSERT (fatal : Bool) (cond : Bool) : Option Unit :=
  if cond || !fatal then some () else none

namespace Session

/-- The pointer the bindings table holds under `id`, `NULL` when it has no entry for `id`:
what a read of `_registeredObjects[id]` yields. The binding under `id` is live when this is
not `NULL`. -/
def objectAt (s : Session) (id : Nat) : Nat := (s.registeredObjects id).getD 0

/-- The expression `_registeredObjects[id]` (`operator[]` of the map): the pointer stored under
`id`; when the map has no entry for `id`, one holding `NULL` is created. -/
def subscript (s : Session) (id : Nat) : Nat × Session :=
  match s.registeredObjects id with
  | some object => (object, s)
  | none => (0, { s with registeredObjects := Function.update s.registeredObjects id (some 0) })

/-- The constructor `Session::Session( nCommands )`. The constant `CMD_SESSION_CUSTOM` and the
capacity of the default-constructed pool are declared outside the sources and are parameters.
The two `registerCommand` calls fill the command table of the base class, which is not part
of this state. The pool is created and all its identifiers are reserved at once. -/
def create (fatal : Bool) (CMD_SESSION_CUSTOM nCommands capacity : Nat) : Option Session :=
  match ASSERT fatal (decide (nCommands ≥ CMD_SESSION_CUSTOM)) with
  | none => none
  | some _ =>
    some { id := INVALID_ID
           server := 0
           isMaster := false
           idPool := ((IdPool.create capacity).genIDs (IdPool.create capacity).getCapacity).2
           requestHandler := { requests := [] }
           registeredObjects := fun _ => none
           sent := [] }

/-- The lines of `Session::genIDs( range )` from the construction of the packet to
`_server->send( packet )`, run on a slave after the local pool has returned `id`: the request
is registered, the packet is filled in and sent. The result holds the packet and the session
as it is while the caller is suspended in `waitRequest`. -/
def genIDsRequest (s : Session) (id range : Nat) : SessionGenIDsPacket × Session :=
  let reg := s.requestHandler.registerRequest
  let packet : SessionGenIDsPacket :=
    { sessionID := id
      requestID := reg.1
      range := if range > MIN_ID_RANGE then range else MIN_ID_RANGE }
  (packet, { s with requestHandler := reg.2, sent := s.sent ++ [packet] })

/-- The method `Session::genIDs( range )`. `reply` gives, for every request id, the
pointer-sized value with which the request of that id is served while the caller is suspended
in `waitRequest`; it is read only when a request is sent, under the id the caller waits
on. -/
def genIDs (s : Session) (range : Nat) (reply : Nat → Nat) : Nat × Session :=
  -- try local pool
  let r := s.idPool.genIDs range
  let s1 := { s with idPool := r.2 }
  if r.1 ≠ 0 ∨ s.isMaster = true then
    (r.1, s1)
  else
    let q := s1.genIDsRequest r.1 range
    let s2 := q.2
    let w := s2.requestHandler.waitRequest q.1.requestID reply
    let id := w.1 % UINT32_SIZE
    let s3 := { s2 with requestHandler := w.2 }
    if id = 0 ∨ range ≥ MIN_ID_RANGE then
      (id, s3)
    else
      -- more identifiers than requested were allocated: the pool handles the details
      let s4 := { s3 with idPool := s3.idPool.freeIDs id MIN_ID_RANGE }
      let r2 := s4.idPool.genIDs range
      (r2.1, { s4 with idPool := r2.2 })

/-- The method `Session::freeIDs( start, range )`. -/
def freeIDs (s : Session) (start range : Nat) : Session :=
  { s with idPool := s.idPool.freeIDs start range }

/-- The method `Session::addRegisteredObject( id, object )`. The assertion reads
`_registeredObjects[id]`. -/
def addRegisteredObject (fatal : Bool) (s : Session) (mem : Heap) (id object : Nat) :
    Option (Session × Heap) :=
  let r := s.subscript id
  match ASSERT fatal (decide (r.1 = 0)) with
  | none => none
  | some _ =>
    some ({ r.2 with registeredObjects := Function.update r.2.registeredObjects id (some object) },
      Function.update mem object { id := id, sessionID := s.id })

/-- The method `Session::registerObject( object )`. -/
def registerObject (fatal : Bool) (s : Session) (mem : Heap) (object : Nat)
    (reply : Nat → Nat) : Option (Session × Heap) :=
  let r := s.genIDs 1 reply
  r.2.addRegisteredObject fatal mem r.1 object

/-- The method `Session::deregisterObject( object )`. `erase( id )` returns the number of
entries it removed: `0` when the map has no entry for `id`, `1` otherwise. -/
def deregisterObject (s : Session) (mem : Heap) (object : Nat) : Session × Heap :=
  let id := (mem object).id
  match s.registeredObjects id with
  | none => (s, mem)
  | some _ =>
    ({ s with registeredObjects := Function.update s.registeredObjects id none }.freeIDs id 1,
      Function.update mem object { id := INVALID_ID, sessionID := INVALID_ID })

/-- The method `Session::dispatchPacket( node, packet )`. The result holds the session as the
steps of `dispatchPacket` itself leave it and the handlers the call invokes, in order; what a
handler does once invoked belongs to the handler (`handleCommand` of the base class and of
`Object`, neither among the sources). -/
def dispatchPacket (fatal : Bool) (s : Session) (node : Nat) (packet : Packet) :
    Option (Session × List Handled) :=
  match packet.datatype with
  | Datatype.EQNET_SESSION => some (s, [Handled.session node packet])
  | Datatype.EQNET_OBJECT =>
    let r := s.subscript packet.objectID
    if r.1 = 0 then
      match ASSERT fatal (decide (r.1 ≠ 0)) with
      | none => none
      | some _ => some (r.2, [])
    else
      some (r.2, [Handled.object r.1 node packet])
  | Datatype.other _ => some (s, [])

end Session

/-! ## Remote allocation -/

/-- The packet `SessionGenIDsReplyPacket` a master session answers a `SessionGenIDsPacket`
with. -/
structure SessionGenIDsReplyPacket where
  /-- The session the packet is addressed to. -/
  sessionID : Nat
  /-- Field `requestID`. -/
  requestID : Nat
  /-- Field `id`, a `uint32_t`. -/
  id : Nat
deriving DecidableEq, Repr

/-- Modelled from the spec: the constructor `SessionGenIDsReplyPacket( packet )`, declared in
a header that is not among the sources. The specification correlates a reply with its request
by the request id: the reply is built from the request and carries its request id; the field
`id` is left for the caller to set. -/
def SessionGenIDsReplyPacket.ofRequest (packet : SessionGenIDsPacket) :
    SessionGenIDsReplyPacket :=
  { sessionID := packet.sessionID, requestID := packet.requestID, id := 0 }

/-- Modelled from the spec: `RequestHandler::serveRequest( requestID, result )`: fulfils the
pending request `requestID` with `result`. The result names the request that is served and
the value it is served with, the value the thread suspended in `waitRequest( requestID )`
receives; it is `none` when no request with that id is pending. -/
def RequestHandler.serveRequest (h : RequestHandler) (requestID result : Nat) :
    Option (Nat × Nat) :=
  if requestID ∈ h.requests then some (requestID, result) else none

/-- The values `reply` that requests are served with agree with one call of `serveRequest`
when the request that call served, if any, has the value that call gave it. -/
def RequestHandler.servedWith (served : Option (Nat × Nat)) (reply : Nat → Nat) : Prop :=
  ∀ requestID result, served = some (requestID, result) → reply requestID = result

namespace Session

/-- The session while `genIDs( range )` is suspended in `waitRequest`, on a slave whose local
pool could not satisfy the request: the local attempt is done, the request is registered and
the packet is sent. -/
def genIDsBlocked (s : Session) (range : Nat) : Session :=
  ({ s with idPool := (s.idPool.genIDs range).2 }.genIDsRequest
    (s.idPool.genIDs range).1 range).2

/-- The handler `Session::_cmdGenIDs( node, pkg )`. The result holds the session after the
call and the packets handed to `node->send`, each with the node it is sent to. -/
def cmdGenIDs (s : Session) (node : Nat) (packet : SessionGenIDsPacket) :
    Session × List (Nat × SessionGenIDsReplyPacket) :=
  let r := s.idPool.genIDs packet.range
  ({ s with idPool := r.2 },
    [(node, { SessionGenIDsReplyPacket.ofRequest packet with id := r.1 })])

/-- The handler `Session::_cmdGenIDsReply( node, pkg )`: `serveRequest` is called with the
request id of the reply and with `(void*)packet->id`, the identifier widened to a pointer of
`pointerBits` bits. The result is the request that is served and the value handed to its
waiter. -/
def cmdGenIDsReply (pointerBits : Nat) (s : Session) (_node : Nat)
    (packet : SessionGenIDsReplyPacket) : Option (Nat × Nat) :=
  s.requestHandler.serveRequest packet.requestID (packet.id % 2 ^ pointerBits)

end Session

/-! ## Example states -/

/-- A master session whose local pool has no free identifier. -/
def exhaustedMaster : Session :=
  { id := 7
    server := 0
    isMaster := true
    idPool := { capacity := 100, free := ∅ }
    requestHandler := { requests := [] }
    registeredObjects := fun _ => none
    sent := [] }

/-- A slave session whose local pool has no free identifier. -/
def exhaustedSlave : Session :=
  { id := 7
    server := 1
    isMaster := false
    idPool := { capacity := 100, free := ∅ }
    requestHandler := { requests := [] }
    registeredObjects := fun _ => none
    sent := [] }

/-- A session whose local pool is the empty pool of capacity 100: nothing is allocated. -/
def emptyPoolSession : Session :=
  { id := 7
    server := 1
    isMaster := false
    idPool := IdPool.create 100
    requestHandler := { requests := [] }
    registeredObjects := fun _ => none
    sent := [] }

/-- A heap in which no object has been registered: every object carries the invalid
identifier. -/
def freshHeap : Heap := fun _ => { id := INVALID_ID, sessionID := INVALID_ID }

/-- A heap in which the object at address 200 carries the identifier 5 it was given by another
session, the session 9; no other object has been registered. -/
def aliasHeap : Heap :=
  fun a => if a = 200 then { id := 5, sessionID := 9 }
    else { id := INVALID_ID, sessionID := INVALID_ID }

/-- The slave session `exhaustedSlave` after `addRegisteredObject( 5, 100 )`: the identifier 5
is bound to the object at address 100. -/
def boundFive : Session :=
  { exhaustedSlave with
    registeredObjects := Function.update exhaustedSlave.registeredObjects 5 (some 100) }

/-- An object packet addressed to the identifier 0, which `exhaustedSlave` does not bind. -/
def strayPacket : Packet :=
  { datatype := Datatype.EQNET_OBJECT, command := 0, objectID := 0 }

/-- The slave session `exhaustedSlave` after `dispatchPacket` has looked up the identifier 0 of
`strayPacket`: the table holds a null entry under 0. -/
def afterStray : Session :=
  { exhaustedSlave with
    registeredObjects := Function.update exhaustedSlave.registeredObjects 0 (some 0) }

/-- A session packet. -/
def sessionPacket : Packet :=
  { datatype := Datatype.EQNET_SESSION, command := 0, objectID := 0 }

/-- An object packet addressed to the identifier 5. -/
def objectPacket : Packet :=
  { datatype := Datatype.EQNET_OBJECT, command := 0, objectID := 5 }

/-- A master session whose local pool is the empty pool of capacity 5000. -/
def richMaster : Session :=
  { id := 7
    server := 0
    isMaster := true
    idPool := IdPool.create 5000
    requestHandler := { requests := [] }
    registeredObjects := fun _ => none
    sent := [] }

end eqNet

/-!
# Equalizer: the named pipe connection

A shallow embedding of `src/lib/net/namedPipeConnectionWin32.cpp` (class
`eq::net::NamedPipeConnection`).

* A handle (`HANDLE`) is a pointer. It is modelled by an integer that names it: `0` names the
  null handle and `-1` names `INVALID_HANDLE_VALUE`. Handles are only compared for equality;
  the comparison `_readFD > 0` of `close()` compares a pointer with the null pointer and holds
  of every handle but the null handle, of `INVALID_HANDLE_VALUE` too.
* What the operating system answers to the calls of one method is an argument of the method,
  a `Win32`. The calls a connection makes are appended to its field `calls`, the
  notifications `_fireStateChanged` sends to its field `fired`.
* A method that contains an assertion returns `none` when it aborts at a failed assertion.
* The constructor sets the type of the description to `CONNECTIONTYPE_NAMEDPIPE` and nothing
  in the file changes it (`acceptSync` hands the description of the listener to the new
  connection), so the assertions on it in `connect` and `listen` hold in every state and the
  description is not part of the state. The macro `CHECK_THREAD` checks which thread calls
  and has no counterpart in a sequential embedding.
-/

namespace eq.net

/-- The constant `#define EQ_PIPE_BUFFER_SIZE 515072`. -/
def EQ_PIPE_BUFFER_SIZE : Nat := 515072

/-- The constant `#define EQ_READ_BUFFER_SIZE 257536`. -/
def EQ_READ_BUFFER_SIZE : Nat := 257536

/-- The constant `#define EQ_WRITE_BUFFER_SIZE 128768`. -/
def EQ_WRITE_BUFFER_SIZE : Nat := 128768

/-- Number of values of a `DWORD`, an unsigned integer of 32 bits. -/
def DWORD_SIZE : Nat := 2 ^ 32

/-- Number of values of a `uint64_t`. -/
def UINT64_SIZE : Nat := 2 ^ 64

/-- The constant `INVALID_HANDLE_VALUE` of the Windows API, `(HANDLE)(LONG_PTR)-1`. -/
def INVALID_HANDLE_VALUE : Int := -1

/-- Modelled from the spec: the macro `EQ_MIN`, defined in a header that is not among the
sources. The specification caps a transfer to a fixed chunk size per call: the macro yields
the smaller of its two arguments. -/
def EQ_MIN (a b : Nat) : Nat := if a < b then a else b

/-- The macro `EQASSERT`, whose definition is not among the sources, is taken as a parameter:
`fatal` says whether a failed assertion aborts the process or is only logged, after which
execution continues. The sources allow for both: `_initAIORead` asserts that the event was
created and then logs an error when it was not. A call that aborts has no result, `none`. -/
def EQASSERT (fatal : Bool) (cond : Bool) : Option Unit :=
  if cond || !fatal then some () else none

/-- The states of a connection, declared by the base class `Connection`. -/
inductive State where
  /-- The value `STATE_CLOSED`. -/
  | STATE_CLOSED
  /-- The value `STATE_CONNECTING`. -/
  | STATE_CONNECTING
  /-- The value `STATE_CONNECTED`. -/
  | STATE_CONNECTED
  /-- The value `STATE_LISTENING`. -/
  | STATE_LISTENING
deriving DecidableEq, Repr

/-- The calls to the operating system the file makes, with the handle, and for a transfer the
length, they are given. -/
inductive Call where
  /-- The call `WaitNamedPipe( filename, 20000 )`. -/
  | WaitNamedPipe
  /-- The call `CreateFile( filename, ... )`. -/
  | CreateFile
  /-- The call `CreateEvent( 0, FALSE, FALSE, 0 )`. -/
  | CreateEvent
  /-- The call `CloseHandle( hEvent )`. -/
  | CloseHandle (hEvent : Int)
  /-- The call `DisconnectNamedPipe( _readFD )`. -/
  | DisconnectNamedPipe (handle : Int)
  /-- The call `ResetEvent( hEvent )`. -/
  | ResetEvent (hEvent : Int)
  /-- The call `CreateNamedPipe( filename, ... )`. -/
  | CreateNamedPipe
  /-- The call `ConnectNamedPipe( hPipe, &_overlapped )`. -/
  | ConnectNamedPipe (handle : Int)
  /-- The call `SetEvent( hEvent )`. -/
  | SetEvent (hEvent : Int)
  /-- The call `GetOverlappedResult( _readFD, &_overlapped, &got, TRUE )`. -/
  | GetOverlappedResult (handle : Int)
  /-- The call `ReadFile( _readFD, buffer, use, 0, &_overlapped )`. -/
  | ReadFile (handle : Int) (use : Nat)
  /-- The call `WriteFile( _readFD, buffer, use, &wrote, 0 )`. -/
  | WriteFile (handle : Int) (use : Nat)
deriving DecidableEq, Repr

/-- The value of `GetLastError()` after `ConnectNamedPipe`, as `_connectToNewClient`
distinguishes it. -/
inductive ConnectError where
  /-- The value `ERROR_IO_PENDING`. -/
  | ERROR_IO_PENDING
  /-- The value `ERROR_PIPE_CONNECTED`. -/
  | ERROR_PIPE_CONNECTED
  /-- Any other value. -/
  | other
deriving DecidableEq, Repr

/-- What the operating system answers to the calls a method makes. -/
structure Win32 where
  /-- Result of `WaitNamedPipe`. -/
  waitNamedPipe : Bool
  /-- Handle returned by `CreateFile`. -/
  createFile : Int
  /-- Whether `GetLastError()` is `ERROR_PIPE_BUSY` after `CreateFile`. -/
  pipeBusy : Bool
  /-- Handle returned by `CreateEvent`, null on failure. -/
  createEvent : Int
  /-- Handle returned by `CreateNamedPipe`. -/
  createNamedPipe : Int
  /-- Result of `ConnectNamedPipe`. -/
  connectNamedPipe : Bool
  /-- Value of `GetLastError()` after `ConnectNamedPipe`. -/
  connectError : ConnectError
  /-- Result of `SetEvent`. -/
  setEvent : Bool
  /-- Result of `GetOverlappedResult`. -/
  overlappedResult : Bool
  /-- Number of bytes `GetOverlappedResult` reports in `got`, a `DWORD`. -/
  got : Nat
  /-- Whether `GetLastError()` is `ERROR_PIPE_CONNECTED` after `GetOverlappedResult`. -/
  pipeConnected : Bool
  /-- Result of `ReadFile`. -/
  readFile : Bool
  /-- Whether `GetLastError()` is `ERROR_IO_PENDING` after `ReadFile`. -/
  ioPending : Bool
  /-- Result of `WriteFile`. -/
  writeFile : Bool
  /-- Number of bytes `WriteFile` reports in `wrote`, a `DWORD`. -/
  wrote : Nat
deriving DecidableEq, Repr

/-- The state of a `NamedPipeConnection`. -/
structure NamedPipeConnection where
  /-- Field `_state` of the base class. -/
  state : State
  /-- Field `_readFD`, the handle of the pipe. -/
  readFD : Int
  /-- Field `_overlapped.hEvent`, null when there is no event. -/
  hEvent : Int
  /-- The states announced by `_fireStateChanged`, oldest first. -/
  fired : List State
  /-- The calls made to the operating system, oldest first. -/
  calls : List Call
deriving DecidableEq, Repr

namespace NamedPipeConnection

/-- Modelled from the spec: the state the constructor of the base class `Connection`, which
is not among the sources, gives a new connection. In the state machine of the specification
a connection starts `Closed`. -/
def initialState : State := State.STATE_CLOSED

/-- The constructor `NamedPipeConnection()`: the event is cleared by the `memset`, and the
handle `_readFD` is not initialised: `readFD` is the value it happens to have. -/
def create (readFD : Int) : NamedPipeConnection :=
  { state := initialState, readFD := readFD, hEvent := 0, fired := [], calls := [] }

/-- Modelled from the spec: the call `_fireStateChanged()` of the base class, which is not
among the sources: the observers of the connection are notified of a state change. The
notification is recorded with the state the connection is in. -/
def fireStateChanged (c : NamedPipeConnection) : NamedPipeConnection :=
  { c with fired := c.fired ++ [c.state] }

/-- Modelled from the spec: the call `isListening()` of the base class, which is not among
the sources: whether the connection is in the state `Listening`. -/
def isListening (c : NamedPipeConnection) : Bool := decide (c.state = State.STATE_LISTENING)

/-- The method `_createNamedPipe()`. -/
def createNamedPipe (c : NamedPipeConnection) (os : Win32) : Bool × NamedPipeConnection :=
  if os.waitNamedPipe = false then
    (false, { c with calls := c.calls ++ [Call.WaitNamedPipe] })
  else
    let c1 := { c with readFD := os.createFile
                       calls := c.calls ++ [Call.WaitNamedPipe, Call.CreateFile] }
    if c1.readFD ≠ INVALID_HANDLE_VALUE then
      (true, c1)
    else if os.pipeBusy = false then
      (false, c1)
    else
      (decide (c1.readFD ≠ INVALID_HANDLE_VALUE), c1)

/-- The method `_initAIORead()`. When the event could not be created the error is logged. -/
def initAIORead (fatal : Bool) (c : NamedPipeConnection) (os : Win32) :
    Option NamedPipeConnection :=
  let c1 := { c with hEvent := os.createEvent, calls := c.calls ++ [Call.CreateEvent] }
  match EQASSERT fatal (decide (c1.hEvent ≠ 0)) with
  | none => none
  | some _ => some c1

/-- The method `_initAIOAccept()`. -/
def initAIOAccept (fatal : Bool) (c : NamedPipeConnection) (os : Win32) :
    Option NamedPipeConnection :=
  c.initAIORead fatal os

/-- The method `_exitAIORead()`. -/
def exitAIORead (c : NamedPipeConnection) : NamedPipeConnection :=
  if c.hEvent ≠ 0 then
    { c with hEvent := 0, calls := c.calls ++ [Call.CloseHandle c.hEvent] }
  else
    c

/-- The method `_exitAIOAccept()`. -/
def exitAIOAccept (c : NamedPipeConnection) : NamedPipeConnection :=
  c.exitAIORead

/-- The method `close()`. The assertion `EQASSERT( _readFD > 0 )` compares the handle, a
pointer, with the null pointer: it holds of every handle that is not null, `INVALID_HANDLE_VALUE`
included, and fails for the null handle only. A failure of `DisconnectNamedPipe` is logged and
changes nothing else. -/
def close (fatal : Bool) (c : NamedPipeConnection) : Option NamedPipeConnection :=
  if ¬ (c.state = State.STATE_CONNECTED ∨ c.state = State.STATE_LISTENING) then
    some c
  else
    let c1 := if c.isListening = true then c.exitAIOAccept else c.exitAIORead
    match EQASSERT fatal (decide (c1.readFD ≠ 0)) with
    | none => none
    | some _ =>
      some (fireStateChanged
        { c1 with calls := c1.calls ++ [Call.DisconnectNamedPipe c1.readFD]
                  readFD := INVALID_HANDLE_VALUE
                  state := State.STATE_CLOSED })

/-- The method `connect()`. The assertion on the type of the description holds in every
state, as said above, and is not represented. -/
def connect (fatal : Bool) (c : NamedPipeConnection) (os : Win32) :
    Option (Bool × NamedPipeConnection) :=
  if c.state ≠ State.STATE_CLOSED then
    some (false, c)
  else
    let c1 := fireStateChanged { c with state := State.STATE_CONNECTING }
    let r := c1.createNamedPipe os
    if r.1 = false then
      some (false, r.2)
    else
      match r.2.initAIORead fatal os with
      | none => none
      | some c2 => some (true, fireStateChanged { c2 with state := State.STATE_CONNECTED })

/-- The method `listen()`. The assertion on the type of the description holds in every
state, as said above, and is not represented. -/
def listen (fatal : Bool) (c : NamedPipeConnection) (os : Win32) :
    Option (Bool × NamedPipeConnection) :=
  if c.state ≠ State.STATE_CLOSED then
    some (false, c)
  else
    let c1 := fireStateChanged { c with state := State.STATE_CONNECTING }
    match c1.initAIOAccept fatal os with
    | none => none
    | some c2 => some (true, fireStateChanged { c2 with state := State.STATE_LISTENING })

/-- The method `_connectToNewClient( hPipe )`. -/
def connectToNewClient (fatal : Bool) (c : NamedPipeConnection) (hPipe : Int) (os : Win32) :
    Option (Bool × NamedPipeConnection) :=
  let c1 := { c with calls := c.calls ++ [Call.ConnectNamedPipe hPipe] }
  match EQASSERT fatal (!os.connectNamedPipe) with
  | none => none
  | some _ =>
    match os.connectError with
    | ConnectError.ERROR_IO_PENDING => some (true, c1)
    | ConnectError.ERROR_PIPE_CONNECTED =>
      if os.setEvent = true then
        some (true, { c1 with calls := c1.calls ++ [Call.SetEvent c1.hEvent] })
      else
        some (false, { c1 with calls := c1.calls ++ [Call.SetEvent c1.hEvent] })
    | ConnectError.other => some (false, c1)

/-- The method `acceptNB()`. The result of `_connectToNewClient` is not used. -/
def acceptNB (fatal : Bool) (c : NamedPipeConnection) (os : Win32) :
    Option NamedPipeConnection :=
  match EQASSERT fatal (decide (c.state = State.STATE_LISTENING)) with
  | none => none
  | some _ =>
    let c1 := { c with readFD := os.createNamedPipe
                       calls := c.calls ++ [Call.ResetEvent c.hEvent, Call.CreateNamedPipe] }
    if c1.readFD = INVALID_HANDLE_VALUE then
      c1.close fatal
    else
      (c1.connectToNewClient fatal c1.readFD os).map Prod.snd

/-- The method `acceptSync()`. The result holds the connection that is returned, `none` for a
null pointer, and the connection the method was called on. -/
def acceptSync (fatal : Bool) (c : NamedPipeConnection) (os : Win32) :
    Option (Option NamedPipeConnection × NamedPipeConnection) :=
  if c.state ≠ State.STATE_LISTENING then
    some (none, c)
  else
    -- complete accept
    let c1 := { c with calls := c.calls ++ [Call.GetOverlappedResult c.readFD] }
    if os.overlappedResult = false then
      if os.pipeConnected = true then
        some (none, c1)
      else
        (c1.close fatal).map (fun c2 => (none, c2))
    else
      let new1 := { create c1.readFD with state := State.STATE_CONNECTED }
      match new1.initAIORead fatal os with
      | none => none
      | some new2 =>
        some (some { new2 with state := State.STATE_CONNECTED },
          { c1 with readFD := INVALID_HANDLE_VALUE })

/-- The method `readNB( buffer, bytes )`. -/
def readNB (fatal : Bool) (c : NamedPipeConnection) (bytes : Nat) (os : Win32) :
    Option NamedPipeConnection :=
  if c.state = State.STATE_CLOSED then
    some c
  else
    let use := EQ_MIN bytes EQ_READ_BUFFER_SIZE % DWORD_SIZE
    let c1 := { c with calls := c.calls ++ [Call.ResetEvent c.hEvent,
                                            Call.ReadFile c.readFD use] }
    if os.readFile = false ∧ os.ioPending = false then
      c1.close fatal
    else
      some c1

/-- The method `readSync( buffer, bytes )`. -/
def readSync (fatal : Bool) (c : NamedPipeConnection) (_bytes : Nat) (os : Win32) :
    Option (Int × NamedPipeConnection) :=
  if c.readFD = INVALID_HANDLE_VALUE then
    some (-1, c)
  else
    let c1 := { c with calls := c.calls ++ [Call.GetOverlappedResult c.readFD] }
    if os.overlappedResult = false then
      if os.pipeConnected = true then
        some (0, c1)
      else
        (c1.close fatal).map (fun c2 => (0, c2))
    else
      some (os.got, c1)

/-- The method `write( buffer, bytes )`. -/
def write (c : NamedPipeConnection) (bytes : Nat) (os : Win32) : Int × NamedPipeConnection :=
  if c.readFD = INVALID_HANDLE_VALUE then
    (-1, c)
  else
    let use := EQ_MIN bytes EQ_WRITE_BUFFER_SIZE % DWORD_SIZE
    let c1 := { c with calls := c.calls ++ [Call.WriteFile c.readFD use] }
    if os.writeFile = true then
      (os.wrote, c1)
    else
      (-1, c1)

end NamedPipeConnection

/-- A listening connection is armed for a client when it holds a pipe instance, a handle
other than `INVALID_HANDLE_VALUE`, on which `ConnectNamedPipe` has been called: the
overlapped accept is started by that call and by no other. -/
def NamedPipeConnection.armed (c : NamedPipeConnection) : Bool :=
  decide (c.state = State.STATE_LISTENING) && decide (c.readFD ≠ INVALID_HANDLE_VALUE) &&
    decide (Call.ConnectNamedPipe c.readFD ∈ c.calls)

/-- The connections reachable from the connection `start` through `connect`, `listen`,
`acceptNB`, `acceptSync`, `readNB`, `readSync`, `write` and `close`, whatever the operating
system answers within the contract of the Windows API, by which `CreateFile` and
`CreateNamedPipe` return `INVALID_HANDLE_VALUE` when they fail and never a null handle; the
connection that `acceptSync` returns is reachable as well. For a freshly constructed connection
`start` is `create readFD`, `readFD` being the value the handle happens to have. -/
inductive Reachable (fatal : Bool) (start : NamedPipeConnection) :
    NamedPipeConnection → Prop where
  /-- The connection itself. -/
  | start : Reachable fatal start start
  /-- After `connect()`. -/
  | connect (c : NamedPipeConnection) (os : Win32) (r : Bool × NamedPipeConnection) :
      Reachable fatal start c → os.createFile ≠ 0 → c.connect fatal os = some r →
      Reachable fatal start r.2
  /-- After `listen()`. -/
  | listen (c : NamedPipeConnection) (os : Win32) (r : Bool × NamedPipeConnection) :
      Reachable fatal start c → c.listen fatal os = some r → Reachable fatal start r.2
  /-- After `acceptNB()`. -/
  | acceptNB (c : NamedPipeConnection) (os : Win32) (c' : NamedPipeConnection) :
      Reachable fatal start c → os.createNamedPipe ≠ 0 → c.acceptNB fatal os = some c' →
      Reachable fatal start c'
  /-- The connection `acceptSync()` was called on, after the call. -/
  | acceptSync (c : NamedPipeConnection) (os : Win32)
      (r : Option NamedPipeConnection × NamedPipeConnection) :
      Reachable fatal start c → c.acceptSync fatal os = some r → Reachable fatal start r.2
  /-- The connection `acceptSync()` returns. -/
  | accepted (c : NamedPipeConnection) (os : Win32) (new c' : NamedPipeConnection) :
      Reachable fatal start c → c.acceptSync fatal os = some (some new, c') →
      Reachable fatal start new
  /-- After `readNB( buffer, bytes )`. -/
  | readNB (c : NamedPipeConnection) (bytes : Nat) (os : Win32) (c' : NamedPipeConnection) :
      Reachable fatal start c → c.readNB fatal bytes os = some c' → Reachable fatal start c'
  /-- After `readSync( buffer, bytes )`. -/
  | readSync (c : NamedPipeConnection) (bytes : Nat) (os : Win32)
      (r : Int × NamedPipeConnection) :
      Reachable fatal start c → c.readSync fatal bytes os = some r → Reachable fatal start r.2
  /-- After `write( buffer, bytes )`. -/
  | write (c : NamedPipeConnection) (bytes : Nat) (os : Win32) :
      Reachable fatal start c → Reachable fatal start (c.write bytes os).2
  /-- After `close()`. -/
  | close (c c' : NamedPipeConnection) :
      Reachable fatal start c → c.close fatal = some c' → Reachable fatal start c'

/-! ## Example states of a connection -/

/-- An operating system every call to which succeeds: the pipe is opened or created with the
handle 5, the event is created with the handle 9, an accept is pending, transfers move 100
bytes. -/
def goodOS : Win32 :=
  { waitNamedPipe := true
    createFile := 5
    pipeBusy := false
    createEvent := 9
    createNamedPipe := 5
    connectNamedPipe := false
    connectError := ConnectError.ERROR_IO_PENDING
    setEvent := true
    overlappedResult := true
    got := 100
    pipeConnected := false
    readFile := true
    ioPending := false
    writeFile := true
    wrote := 100 }

/-- An operating system every transfer, completion and pipe call to which fails, with an
error that is neither `ERROR_PIPE_CONNECTED` nor `ERROR_IO_PENDING` nor `ERROR_PIPE_BUSY`;
only the event can be created. -/
def failingOS : Win32 :=
  { waitNamedPipe := false
    createFile := INVALID_HANDLE_VALUE
    pipeBusy := false
    createEvent := 9
    createNamedPipe := INVALID_HANDLE_VALUE
    connectNamedPipe := false
    connectError := ConnectError.other
    setEvent := false
    overlappedResult := false
    got := 0
    pipeConnected := false
    readFile := false
    ioPending := false
    writeFile := false
    wrote := 0 }

/-- An operating system whose completed read has moved no byte. -/
def emptyReadOS : Win32 :=
  { goodOS with got := 0 }

/-- The connection a successful `connect()` leaves: connected over the handle 5. -/
def connectedPipe : NamedPipeConnection :=
  { state := State.STATE_CONNECTED
    readFD := 5
    hEvent := 9
    fired := [State.STATE_CONNECTING, State.STATE_CONNECTED]
    calls := [Call.WaitNamedPipe, Call.CreateFile, Call.CreateEvent] }

/-- The connection a successful `listen()` followed by a successful `acceptNB()` leaves:
listening, with an accept pending on the pipe instance of handle 5. -/
def listeningPipe : NamedPipeConnection :=
  { state := State.STATE_LISTENING
    readFD := 5
    hEvent := 9
    fired := [State.STATE_CONNECTING, State.STATE_LISTENING]
    calls := [Call.CreateEvent, Call.ResetEvent 9, Call.CreateNamedPipe,
      Call.ConnectNamedPipe 5] }

/-- The connection a successful `listen()` leaves when the handle of the freshly constructed
connection has the value `readFD`: listening, with that same handle. -/
def listenedPipe (readFD : Int) : NamedPipeConnection :=
  { state := State.STATE_LISTENING
    readFD := readFD
    hEvent := 9
    fired := [State.STATE_CONNECTING, State.STATE_LISTENING]
    calls := [Call.CreateEvent] }

/-- The listening connection `listeningPipe` after a successful `acceptSync()`: still
listening, its handle having gone to the accepted connection. -/
def movedListener : NamedPipeConnection :=
  { listeningPipe with
    readFD := INVALID_HANDLE_VALUE
    calls := listeningPipe.calls ++ [Call.GetOverlappedResult 5] }

/-- The connection that `acceptSync()` returns on `listeningPipe`. -/
def acceptedPipe : NamedPipeConnection :=
  { state := State.STATE_CONNECTED
    readFD := 5
    hEvent := 9
    fired := []
    calls := [Call.CreateEvent] }

end eq.net

namespace eqNet

/-! ## The identifier pool and the request table -/

theorem IdPool.candidates_ne_zero (p : IdPool) (range a : Nat)
    (ha : a ∈ p.candidates range) : a ≠ 0 := by
  simp only [IdPool.candidates, Finset.mem_filter] at ha
  exact ha.2.1

theorem IdPool.genIDs_of_isLeast (p : IdPool) (range a : Nat)
    (ha : a ∈ p.candidates range) (hle : ∀ b ∈ p.candidates range, a ≤ b) :
    p.genIDs range = (a, { p with free := p.free \ Finset.Ico a (a + range) }) := by
  have hne : (p.candidates range).Nonempty := ⟨a, ha⟩
  have hmin : (p.candidates range).min' hne = a :=
    le_antisymm (Finset.min'_le _ a ha) (hle _ (Finset.min'_mem _ hne))
  simp only [IdPool.genIDs, dif_pos hne, hmin]

theorem IdPool.genIDs_of_empty (p : IdPool) (range : Nat)
    (h : p.candidates range = ∅) : p.genIDs range = (0, p) := by
  simp [IdPool.genIDs, h]

/-- A failed allocation, one that returns `0`, leaves the pool as it was. -/
theorem IdPool.genIDs_fail (p : IdPool) (range : Nat)
    (h : (p.genIDs range).1 = 0) : p.genIDs range = (0, p) := by
  by_cases hne : (p.candidates range).Nonempty
  · exfalso
    have hmem := Finset.min'_mem _ hne
    have h0 := IdPool.candidates_ne_zero p range _ hmem
    simp only [IdPool.genIDs, dif_pos hne] at h
    exact h0 h
  · simp [IdPool.genIDs, dif_neg hne]

/-- A successful allocation returns the least candidate and removes its block. -/
theorem IdPool.genIDs_success (p : IdPool) (range : Nat)
    (h : (p.candidates range).Nonempty) :
    (p.genIDs range).1 ∈ p.candidates range ∧
    (p.genIDs range).2 =
      { p with free := p.free \ Finset.Ico (p.genIDs range).1 ((p.genIDs range).1 + range) } := by
  simp only [IdPool.genIDs, dif_pos h]
  exact ⟨Finset.min'_mem _ h, trivial⟩

theorem RequestHandler.le_foldr_max (l : List Nat) (x : Nat) (hx : x ∈ l) :
    x ≤ l.foldr max 0 := by
  induction l with
  | nil => simp at hx
  | cons y ys ih =>
    simp only [List.foldr_cons]
    rcases List.mem_cons.mp hx with h | h
    · subst h
      exact le_max_left _ _
    · exact le_trans (ih h) (le_max_right _ _)

/-- The request id handed out by `registerRequest` is carried by no pending request. -/
theorem RequestHandler.registerRequest_fresh (h : RequestHandler) :
    h.registerRequest.1 ∉ h.requests := by
  intro hmem
  have := RequestHandler.le_foldr_max h.requests _ hmem
  simp only [RequestHandler.registerRequest] at this
  omega

/-! ## Identifier allocation by a session -/

/-- C1: on a master session `genIDs` returns exactly what the local pool returns, in
particular the invalid identifier when the pool is exhausted, and the session afterwards
differs from the session before only by the local allocation: no request was registered and
no packet was sent. -/
theorem genIDs_master_local (s : Session) (range : Nat) (reply : Nat → Nat)
    (hm : s.isMaster = true) :
    (s.genIDs range reply).1 = (s.idPool.genIDs range).1 ∧
    (s.idPool.candidates range = ∅ → (s.genIDs range reply).1 = INVALID_ID) ∧
    (s.genIDs range reply).2 = { s with idPool := (s.idPool.genIDs range).2 } ∧
    (s.genIDs range reply).2.requestHandler = s.requestHandler ∧
    (s.genIDs range reply).2.sent = s.sent := by
  have hg : s.genIDs range reply
      = ((s.idPool.genIDs range).1, { s with idPool := (s.idPool.genIDs range).2 }) := by
    simp [Session.genIDs, Session.genIDsRequest, hm]
  refine ⟨by rw [hg], ?_, by rw [hg], by rw [hg], by rw [hg]⟩
  intro he
  rw [hg, IdPool.genIDs_of_empty _ _ he]
  rfl

theorem genIDs_master_local_witness :
    exhaustedMaster.isMaster = true ∧
    (exhaustedMaster.genIDs 5 (fun _ => 4242)).1 = INVALID_ID ∧
    (exhaustedMaster.genIDs 5 (fun _ => 4242)).2.sent = [] :=
  ⟨rfl, (genIDs_master_local exhaustedMaster 5 (fun _ => 4242) rfl).2.1 (by decide),
    (genIDs_master_local exhaustedMaster 5 (fun _ => 4242) rfl).2.2.2.2⟩

/-- C2: when the local pool of a slave session cannot satisfy `genIDs( range )`, exactly one
packet is sent to the master; it carries the request id that `registerRequest` has just
handed out, which no request pending before the call carries, and the range
`max range 1024`: `1024` for a smaller request, the request itself otherwise. -/
theorem genIDs_slave_request (s : Session) (range : Nat) (reply : Nat → Nat)
    (hs : s.isMaster = false) (hfail : (s.idPool.genIDs range).1 = 0) :
    (s.genIDs range reply).2.sent =
      s.sent ++ [{ sessionID := 0
                   requestID := s.requestHandler.registerRequest.1
                   range := max range MIN_ID_RANGE }] ∧
    s.requestHandler.registerRequest.1 ∉ s.requestHandler.requests ∧
    (range < MIN_ID_RANGE → max range MIN_ID_RANGE = MIN_ID_RANGE) ∧
    (MIN_ID_RANGE ≤ range → max range MIN_ID_RANGE = range) := by
  refine ⟨?_, RequestHandler.registerRequest_fresh _, fun h => max_eq_right (le_of_lt h),
    fun h => max_eq_left h⟩
  have hmax : (if range > MIN_ID_RANGE then range else MIN_ID_RANGE) = max range MIN_ID_RANGE := by
    by_cases h : range > MIN_ID_RANGE
    · rw [if_pos h, max_eq_left (le_of_lt h)]
    · rw [if_neg h, max_eq_right (not_lt.mp h)]
  simp only [Session.genIDs, Session.genIDsRequest, hfail, hs, hmax]
  simp only [ne_eq, not_true_eq_false, Bool.false_eq_true, or_self, if_false]
  split <;> rfl

theorem genIDs_slave_request_witness :
    exhaustedSlave.isMaster = false ∧
    (exhaustedSlave.genIDs 5 (fun _ => 4242)).2.sent =
      [{ sessionID := 0, requestID := 1, range := 1024 }] :=
  ⟨rfl, (genIDs_slave_request exhaustedSlave 5 (fun _ => 4242) rfl (by decide)).1⟩

/-- C5: when the local pool of a slave session cannot satisfy `genIDs( range )` and the master
answers with the invalid identifier (the value delivered to the waiter is `0` as a
`uint32_t`), `genIDs` returns the invalid identifier and the local pool after the call is the
local pool before the call. -/
theorem genIDs_slave_exhausted (s : Session) (range : Nat) (reply : Nat → Nat)
    (hs : s.isMaster = false) (hfail : (s.idPool.genIDs range).1 = 0)
    (hreply : reply s.requestHandler.registerRequest.1 % UINT32_SIZE = 0) :
    (s.genIDs range reply).1 = INVALID_ID ∧ (s.genIDs range reply).2.idPool = s.idPool := by
  have hp := IdPool.genIDs_fail _ _ hfail
  simp [Session.genIDs, Session.genIDsRequest, hs, hp, RequestHandler.waitRequest, hreply,
    INVALID_ID]

theorem genIDs_slave_exhausted_witness :
    exhaustedSlave.isMaster = false ∧ (exhaustedSlave.genIDs 5 (fun _ => 0)).1 = INVALID_ID ∧
    (exhaustedSlave.genIDs 5 (fun _ => 0)).2.idPool = exhaustedSlave.idPool :=
  ⟨rfl, genIDs_slave_exhausted exhaustedSlave 5 (fun _ => 0) rfl (by decide) (by decide)⟩

/-- When the local pool satisfies the request, `genIDs` is the local allocation. -/
theorem genIDs_local (s : Session) (range : Nat) (reply : Nat → Nat)
    (h : (s.idPool.genIDs range).1 ≠ 0) :
    s.genIDs range reply
      = ((s.idPool.genIDs range).1, { s with idPool := (s.idPool.genIDs range).2 }) := by
  simp [Session.genIDs, Session.genIDsRequest, h]

/-- When the local pool of a slave fails and the master grants, for a request below the
minimum, the block starting at the non-zero identifier the request of the call is served with,
the whole granted block is freed into the local pool and the request is served from there. -/
theorem genIDs_granted (s : Session) (range : Nat) (reply : Nat → Nat)
    (hs : s.isMaster = false) (hlt : range < MIN_ID_RANGE) (hfail : (s.idPool.genIDs range).1 = 0)
    (hid : reply s.requestHandler.registerRequest.1 % UINT32_SIZE ≠ 0) :
    (s.genIDs range reply).1
      = ((s.idPool.freeIDs (reply s.requestHandler.registerRequest.1 % UINT32_SIZE)
          MIN_ID_RANGE).genIDs range).1 ∧
    (s.genIDs range reply).2.idPool
      = ((s.idPool.freeIDs (reply s.requestHandler.registerRequest.1 % UINT32_SIZE)
          MIN_ID_RANGE).genIDs range).2 := by
  have hp := IdPool.genIDs_fail _ _ hfail
  have hge : ¬ range ≥ MIN_ID_RANGE := not_le.mpr hlt
  simp [Session.genIDs, Session.genIDsRequest, hs, hp, RequestHandler.waitRequest, hid, hge]

/-- C3: on a slave session, for a request below the minimum that the local pool cannot
satisfy and a non-zero block start `id` granted by the master, `genIDs( range )` returns the
non-zero start of a block of `range` identifiers taken from the previous free set plus the
granted block `[id, id + 1024)`, and the free set of the local pool afterwards is that union
minus the returned block. What is left of the granted block is free in the local pool, and
these are at least `1024 - range` identifiers. -/
theorem genIDs_slave_surplus (s : Session) (range : Nat) (reply : Nat → Nat)
    (hs : s.isMaster = false) (hlt : range < MIN_ID_RANGE) (hfail : (s.idPool.genIDs range).1 = 0)
    (hid : reply s.requestHandler.registerRequest.1 % UINT32_SIZE ≠ 0) :
    (s.genIDs range reply).1 ≠ 0 ∧
    Finset.Ico (s.genIDs range reply).1 ((s.genIDs range reply).1 + range) ⊆
      s.idPool.free ∪ Finset.Ico (reply s.requestHandler.registerRequest.1 % UINT32_SIZE)
            (reply s.requestHandler.registerRequest.1 % UINT32_SIZE + MIN_ID_RANGE) ∧
    (s.genIDs range reply).2.idPool.free =
      (s.idPool.free ∪ Finset.Ico (reply s.requestHandler.registerRequest.1 % UINT32_SIZE)
            (reply s.requestHandler.registerRequest.1 % UINT32_SIZE + MIN_ID_RANGE)) \
        Finset.Ico (s.genIDs range reply).1 ((s.genIDs range reply).1 + range) ∧
    Finset.Ico (reply s.requestHandler.registerRequest.1 % UINT32_SIZE)
          (reply s.requestHandler.registerRequest.1 % UINT32_SIZE + MIN_ID_RANGE) \
        Finset.Ico (s.genIDs range reply).1 ((s.genIDs range reply).1 + range) ⊆
      (s.genIDs range reply).2.idPool.free ∧
    MIN_ID_RANGE - range ≤
      (Finset.Ico (reply s.requestHandler.registerRequest.1 % UINT32_SIZE)
            (reply s.requestHandler.registerRequest.1 % UINT32_SIZE + MIN_ID_RANGE) \
        Finset.Ico (s.genIDs range reply).1 ((s.genIDs range reply).1 + range)).card := by
  obtain ⟨h1, h2⟩ := genIDs_granted s range reply hs hlt hfail hid
  -- the granted block itself is a candidate of the refilled pool
  have hcand : reply s.requestHandler.registerRequest.1 % UINT32_SIZE ∈
      (s.idPool.freeIDs (reply s.requestHandler.registerRequest.1 % UINT32_SIZE)
        MIN_ID_RANGE).candidates range := by
    simp only [IdPool.candidates, IdPool.freeIDs, Finset.mem_filter, Finset.mem_union,
      Finset.mem_Ico]
    refine ⟨Or.inr ⟨le_refl _, ?_⟩, hid, fun i hi => Or.inr ⟨Nat.le_add_right _ _, ?_⟩⟩
    · simp [MIN_ID_RANGE]
    · have := lt_trans hi hlt
      omega
  obtain ⟨hmem, hpool⟩ := IdPool.genIDs_success _ range ⟨_, hcand⟩
  rw [← h1] at hmem hpool
  rw [← h2] at hpool
  have hfree : (s.genIDs range reply).2.idPool.free =
      (s.idPool.free ∪ Finset.Ico (reply s.requestHandler.registerRequest.1 % UINT32_SIZE)
            (reply s.requestHandler.registerRequest.1 % UINT32_SIZE + MIN_ID_RANGE)) \
        Finset.Ico (s.genIDs range reply).1 ((s.genIDs range reply).1 + range) := by
    rw [hpool]
    rfl
  refine ⟨IdPool.candidates_ne_zero _ _ _ hmem, ?_, hfree, ?_, ?_⟩
  · intro x hx
    simp only [IdPool.candidates, IdPool.freeIDs, Finset.mem_filter] at hmem
    have hx2 := Finset.mem_Ico.mp hx
    have := hmem.2.2 (x - (s.genIDs range reply).1) (by omega)
    have hxe : (s.genIDs range reply).1 + (x - (s.genIDs range reply).1) = x := by omega
    rwa [hxe] at this
  · rw [hfree]
    exact Finset.sdiff_subset_sdiff Finset.subset_union_right (le_refl _)
  · have hc := Finset.le_card_sdiff
      (Finset.Ico (s.genIDs range reply).1 ((s.genIDs range reply).1 + range))
      (Finset.Ico (reply s.requestHandler.registerRequest.1 % UINT32_SIZE)
            (reply s.requestHandler.registerRequest.1 % UINT32_SIZE + MIN_ID_RANGE))
    simp only [Nat.card_Ico, Nat.add_sub_cancel_left] at hc
    exact hc

theorem genIDs_slave_surplus_witness :
    exhaustedSlave.isMaster = false ∧ (exhaustedSlave.genIDs 5 (fun _ => 4242)).1 ≠ 0 ∧
    (exhaustedSlave.genIDs 5 (fun _ => 4242)).2.idPool.free =
      (exhaustedSlave.idPool.free ∪ Finset.Ico (4242 % UINT32_SIZE)
          (4242 % UINT32_SIZE + MIN_ID_RANGE)) \
        Finset.Ico (exhaustedSlave.genIDs 5 (fun _ => 4242)).1
          ((exhaustedSlave.genIDs 5 (fun _ => 4242)).1 + 5) :=
  ⟨rfl,
    (genIDs_slave_surplus exhaustedSlave 5 (fun _ => 4242) rfl (by decide) (by decide)
      (by decide)).1,
    (genIDs_slave_surplus exhaustedSlave 5 (fun _ => 4242) rfl (by decide) (by decide)
      (by decide)).2.2.1⟩

/-- The first allocation of `r` identifiers from the empty pool of capacity `c` returns `1`. -/
theorem IdPool.genIDs_create (r c : Nat) (hr : 0 < r) (hc : r ≤ c) :
    (IdPool.create c).genIDs r
      = (1, { capacity := c, free := Finset.Icc 1 c \ Finset.Ico 1 (1 + r) }) := by
  refine IdPool.genIDs_of_isLeast _ r 1 ?_ ?_
  · simp only [IdPool.candidates, IdPool.create, Finset.mem_filter, Finset.mem_Icc]
    exact ⟨⟨le_refl _, by omega⟩, one_ne_zero, fun i hi => ⟨by omega, by omega⟩⟩
  · intro b hb
    exact Nat.one_le_iff_ne_zero.mpr (IdPool.candidates_ne_zero _ _ _ hb)

/-- The second allocation of `r` identifiers from a pool of capacity at least `2 * r` returns
`1 + r`. -/
theorem IdPool.genIDs_create_second (r c : Nat) (hr : 0 < r) (hc : 2 * r ≤ c) :
    (({ capacity := c, free := Finset.Icc 1 c \ Finset.Ico 1 (1 + r) } : IdPool).genIDs r).1
      = 1 + r := by
  have h := IdPool.genIDs_of_isLeast
    ({ capacity := c, free := Finset.Icc 1 c \ Finset.Ico 1 (1 + r) } : IdPool) r (1 + r) ?_ ?_
  · rw [h]
  · simp only [IdPool.candidates, Finset.mem_filter, Finset.mem_sdiff, Finset.mem_Icc,
      Finset.mem_Ico]
    exact ⟨⟨⟨by omega, by omega⟩, by omega⟩, by omega,
      fun i hi => ⟨⟨by omega, by omega⟩, by omega⟩⟩
  · intro b hb
    simp only [IdPool.candidates, Finset.mem_filter, Finset.mem_sdiff, Finset.mem_Icc,
      Finset.mem_Ico] at hb
    omega

/-- The constructor reserves every identifier of the pool: a session that has just been
constructed is a slave whose local pool has no free identifier and whose table is empty. -/
theorem create_reserves_all (fatal : Bool) (k n c : Nat) (s : Session)
    (h : Session.create fatal k n c = some s) :
    s.idPool = { capacity := c, free := ∅ } ∧ s.isMaster = false ∧
    ∀ j, s.registeredObjects j = none := by
  unfold Session.create at h
  cases ha : ASSERT fatal (decide (n ≥ k)) with
  | none => simp [ha] at h
  | some u =>
    simp only [ha, Option.some.injEq] at h
    subst h
    refine ⟨?_, rfl, fun _ => rfl⟩
    show ((IdPool.create c).genIDs c).2 = _
    rcases Nat.eq_zero_or_pos c with hc | hc
    · subst hc
      rfl
    · rw [IdPool.genIDs_create c c hc (le_refl _)]
      have : Finset.Icc 1 c \ Finset.Ico 1 (1 + c) = ∅ := by
        ext x
        simp only [Finset.mem_sdiff, Finset.mem_Icc, Finset.mem_Ico, Finset.not_mem_empty,
          iff_false]
        omega
      simp only [this]

/-- Freeing the block `[1, 1 + c)` into a session that has just been constructed with a pool
of capacity `c` makes its local pool the empty pool of capacity `c`. -/
theorem create_freeIDs (fatal : Bool) (k n c : Nat) (s : Session)
    (h : Session.create fatal k n c = some s) :
    (s.freeIDs 1 c).idPool = IdPool.create c := by
  obtain ⟨hp, _⟩ := create_reserves_all fatal k n c s h
  simp only [Session.freeIDs, IdPool.freeIDs, hp, IdPool.create, IdPool.mk.injEq, true_and]
  ext x
  simp only [Finset.mem_union, Finset.not_mem_empty, false_or, Finset.mem_Ico, Finset.mem_Icc]
  omega

/-- C4: two consecutive calls `genIDs( r )`, `r > 0`, on a session whose local pool is the
empty pool of a capacity of at least `2 * r` return `1` and `1 + r`, the starts of two
disjoint blocks of `r` identifiers; for `r = 1`, as in the scenario with capacity 100, they
return `1` and `2`. -/
theorem genIDs_twice_disjoint (s : Session) (r c : Nat) (reply₁ reply₂ : Nat → Nat)
    (hr : 0 < r)
    (hc : 2 * r ≤ c) (hpool : s.idPool = IdPool.create c) :
    (s.genIDs r reply₁).1 = 1 ∧ ((s.genIDs r reply₁).2.genIDs r reply₂).1 = 1 + r ∧
    Disjoint (Finset.Ico (s.genIDs r reply₁).1 ((s.genIDs r reply₁).1 + r))
      (Finset.Ico ((s.genIDs r reply₁).2.genIDs r reply₂).1
        (((s.genIDs r reply₁).2.genIDs r reply₂).1 + r)) ∧
    (r = 1 →
      (s.genIDs r reply₁).1 = 1 ∧ ((s.genIDs r reply₁).2.genIDs r reply₂).1 = 2) := by
  have hp1 : s.idPool.genIDs r
      = (1, { capacity := c, free := Finset.Icc 1 c \ Finset.Ico 1 (1 + r) }) := by
    rw [hpool]
    exact IdPool.genIDs_create r c hr (by omega)
  have h1 : s.genIDs r reply₁
      = (1, { s with idPool := { capacity := c,
                                 free := Finset.Icc 1 c \ Finset.Ico 1 (1 + r) } }) := by
    rw [genIDs_local s r reply₁ (by rw [hp1]; exact one_ne_zero), hp1]
  have hp2 := IdPool.genIDs_create_second r c hr hc
  have h2 : ((s.genIDs r reply₁).2.genIDs r reply₂).1 = 1 + r := by
    rw [h1, genIDs_local _ r reply₂ (by simp only [hp2]; omega)]
    exact hp2
  have ha : (s.genIDs r reply₁).1 = 1 := by rw [h1]
  refine ⟨ha, h2, ?_, fun h => ⟨ha, by rw [h2, h]⟩⟩
  rw [h2, ha, Finset.disjoint_left]
  intro x hx hx2
  simp only [Finset.mem_Ico] at hx hx2
  omega

theorem genIDs_twice_disjoint_witness :
    emptyPoolSession.idPool = IdPool.create 100 ∧
    (emptyPoolSession.genIDs 1 (fun _ => 0)).1 = 1 ∧
    ((emptyPoolSession.genIDs 1 (fun _ => 0)).2.genIDs 1 (fun _ => 0)).1 = 2 :=
  ⟨rfl, (genIDs_twice_disjoint emptyPoolSession 1 100 (fun _ => 0) (fun _ => 0) (by decide)
    (by decide) rfl).2.2.2 rfl⟩

/-! ## Registration of objects -/

/-- The method `genIDs` touches neither the bindings table nor the session id. -/
theorem genIDs_frame (s : Session) (range : Nat) (reply : Nat → Nat) :
    (s.genIDs range reply).2.registeredObjects = s.registeredObjects ∧
    (s.genIDs range reply).2.id = s.id := by
  simp only [Session.genIDs, Session.genIDsRequest]
  split_ifs <;> exact ⟨rfl, rfl⟩

theorem subscript_fst (s : Session) (id : Nat) : (s.subscript id).1 = s.objectAt id := by
  unfold Session.subscript Session.objectAt
  cases h : s.registeredObjects id <;> rfl

/-- When the assertion of `addRegisteredObject` holds or is not fatal, the call binds `id` to
`object`, whatever the table held under `id`. -/
theorem addRegisteredObject_ok (fatal : Bool) (s : Session) (mem : Heap) (id object : Nat)
    (h : fatal = false ∨ s.objectAt id = 0) :
    s.addRegisteredObject fatal mem id object
      = some ({ s with registeredObjects := Function.update s.registeredObjects id (some object) },
          Function.update mem object { id := id, sessionID := s.id }) := by
  have hassert : ASSERT fatal (decide ((s.subscript id).1 = 0)) = some () := by
    rw [subscript_fst]
    rcases h with h | h
    · simp [ASSERT, h]
    · simp [ASSERT, h]
  unfold Session.addRegisteredObject
  simp only [hassert]
  unfold Session.subscript
  cases hreg : s.registeredObjects id with
  | none => simp [Function.update_idem]
  | some o => simp

/-- When the assertion of `addRegisteredObject` fails and is fatal, the call aborts. -/
theorem addRegisteredObject_abort (s : Session) (mem : Heap) (id object : Nat)
    (h : s.objectAt id ≠ 0) :
    s.addRegisteredObject true mem id object = none := by
  have hassert : ASSERT true (decide ((s.subscript id).1 = 0)) = none := by
    rw [subscript_fst]
    simp [ASSERT, h]
  unfold Session.addRegisteredObject
  simp only [hassert]

/-- C6, the code at the failing input: on a master session whose pool is exhausted
`genIDs( 1 )` returns the invalid identifier and allocates nothing, the pool being as before,
and `registerObject` binds the object at address 100 under that identifier all the same. A
second `registerObject`, of the object at address 200, gets the invalid identifier again:
where a failed assertion is fatal it aborts at the assertion of `addRegisteredObject` and
binds nothing; where it is only logged it takes the binding of the object at address 100
away, which still carries the identifier the table now maps to the object at address 200. -/
theorem registerObject_abort_example :
    (exhaustedMaster.genIDs 1 (fun _ => 0)).1 = INVALID_ID ∧
    (exhaustedMaster.genIDs 1 (fun _ => 0)).2.idPool = exhaustedMaster.idPool ∧
    (exhaustedMaster.registerObject true freshHeap 100 (fun _ => 0)).map
        (fun r => (r.1.registeredObjects 0, (r.2 100).id, r.1.idPool.free))
      = some (some 100, 0, ∅) ∧
    (exhaustedMaster.registerObject true freshHeap 100 (fun _ => 0)).bind
        (fun r => r.1.registerObject true r.2 200 (fun _ => 0)) = none ∧
    ((exhaustedMaster.registerObject false freshHeap 100 (fun _ => 0)).bind
        (fun r => r.1.registerObject false r.2 200 (fun _ => 0))).map
        (fun r => (r.1.registeredObjects 0, (r.2 100).id, (r.2 200).id))
      = some (some 200, 0, 0) :=
  ⟨by decide, by decide, by decide, rfl, by decide⟩

/-- Whatever identifier `genIDs( 1 )` returns, `registerObject( object )` passes it to
`addRegisteredObject`: unless the assertion is fatal and the table already holds a live
binding under it, the table maps the identifier to the object, the object carries it and the
id of the session, every other binding and every other object is unchanged, and the rest of
the session is as `genIDs( 1 )` left it. When the assertion is fatal and the table holds a
live binding under the identifier, the call aborts. -/
theorem registerObject_binds (fatal : Bool) (s : Session) (mem : Heap) (object : Nat)
    (reply : Nat → Nat) :
    (fatal = false ∨ s.objectAt (s.genIDs 1 reply).1 = 0 →
      ∃ s' mem', s.registerObject fatal mem object reply = some (s', mem') ∧
        s'.registeredObjects (s.genIDs 1 reply).1 = some object ∧
        (mem' object).id = (s.genIDs 1 reply).1 ∧
        (mem' object).sessionID = s.id ∧
        (∀ j, j ≠ (s.genIDs 1 reply).1 → s'.registeredObjects j = s.registeredObjects j) ∧
        (∀ o, o ≠ object → mem' o = mem o) ∧
        s'.idPool = (s.genIDs 1 reply).2.idPool ∧
        s'.requestHandler = (s.genIDs 1 reply).2.requestHandler ∧
        s'.sent = (s.genIDs 1 reply).2.sent ∧
        s'.id = s.id ∧ s'.isMaster = s.isMaster) ∧
    (fatal = true → s.objectAt (s.genIDs 1 reply).1 ≠ 0 →
      s.registerObject fatal mem object reply = none) := by
  obtain ⟨hreg, hid⟩ := genIDs_frame s 1 reply
  have hobj : ∀ j, (s.genIDs 1 reply).2.objectAt j = s.objectAt j := by
    intro j
    simp only [Session.objectAt, hreg]
  constructor
  · intro h
    have h2 : fatal = false ∨ (s.genIDs 1 reply).2.objectAt (s.genIDs 1 reply).1 = 0 := by
      rw [hobj]
      exact h
    refine ⟨_, _, addRegisteredObject_ok fatal _ mem _ object h2, ?_, ?_, ?_, ?_, ?_, rfl, rfl,
      rfl, hid, ?_⟩
    · simp
    · simp
    · simp [hid]
    · intro j hj
      simp [Function.update_noteq hj, hreg]
    · intro o ho
      simp [Function.update_noteq ho]
    · simp only [Session.genIDs, Session.genIDsRequest]
      split_ifs <;> rfl
  · intro hf hlive
    subst hf
    exact addRegisteredObject_abort _ mem _ object (by rw [hobj]; exact hlive)

/-- On a session whose pool has a free identifier, `registerObject` binds the object under the
identifier 1 the pool hands out. -/
theorem registerObject_binds_witness :
    (emptyPoolSession.genIDs 1 (fun _ => 0)).1 = 1 ∧
    ∃ s' mem', emptyPoolSession.registerObject true freshHeap 100 (fun _ => 0)
        = some (s', mem') ∧
      s'.registeredObjects (emptyPoolSession.genIDs 1 (fun _ => 0)).1 = some 100 ∧
      (mem' 100).id = (emptyPoolSession.genIDs 1 (fun _ => 0)).1 ∧
      (mem' 100).sessionID = emptyPoolSession.id := by
  have hpool : (emptyPoolSession.idPool.genIDs 1).1 = 1 :=
    congrArg Prod.fst (IdPool.genIDs_create 1 100 (by decide) (by decide))
  have h1 : (emptyPoolSession.genIDs 1 (fun _ => 0)).1 = 1 := by
    rw [genIDs_local emptyPoolSession 1 (fun _ => 0) (by rw [hpool]; decide)]
    dsimp only
    exact hpool
  have hfree : emptyPoolSession.objectAt (emptyPoolSession.genIDs 1 (fun _ => 0)).1 = 0 := by
    simp [Session.objectAt, emptyPoolSession]
  obtain ⟨s', mem', h2, h3, h4, h5, _⟩ :=
    (registerObject_binds true emptyPoolSession freshHeap 100 (fun _ => 0)).1 (Or.inr hfree)
  exact ⟨h1, s', mem', h2, h3, h4, h5⟩

/-- C7, the claim fails where a failed assertion is only logged: after
`addRegisteredObject( 5, 100 )` the identifier 5 is bound to the object at address 100; a
following `addRegisteredObject( 5, 200 )` returns with the identifier 5 bound to the object at
address 200, while the object at address 100 still carries the identifier 5. -/
theorem addRegisteredObject_overwrite_example :
    (exhaustedMaster.addRegisteredObject false freshHeap 5 100).map
        (fun r => r.1.registeredObjects 5) = some (some 100) ∧
    ((exhaustedMaster.addRegisteredObject false freshHeap 5 100).bind
        (fun r => r.1.addRegisteredObject false r.2 5 200)).map
        (fun r => (r.1.registeredObjects 5, (r.2 100).id, (r.2 200).id))
      = some (some 200, 5, 5) :=
  ⟨by decide, by decide⟩

/-- C7 as amended: when `id` has a live binding, to the object `orig`, the assertion of
`addRegisteredObject( id, other )` fails. Where a failed assertion is fatal the call aborts
before the table is written. Where it is only logged the call returns and has bound `id` to
`other` in place of `orig`: the other bindings are unchanged, `other` carries `id` and the id
of the session, and every other object, `orig` included, is as before. In every state the
table, being a map, holds at most one binding per identifier. -/
theorem addRegisteredObject_duplicate (s : Session) (mem : Heap) (id orig other : Nat)
    (hb : s.registeredObjects id = some orig) (hlive : orig ≠ 0) :
    ASSERT true (decide ((s.subscript id).1 = 0)) = none ∧
    s.addRegisteredObject true mem id other = none ∧
    (∃ s' mem', s.addRegisteredObject false mem id other = some (s', mem') ∧
      s'.registeredObjects id = some other ∧
      (∀ j, j ≠ id → s'.registeredObjects j = s.registeredObjects j) ∧
      mem' other = { id := id, sessionID := s.id } ∧
      (∀ o, o ≠ other → mem' o = mem o)) ∧
    (∀ (t : Session) (j o₁ o₂ : Nat),
      t.registeredObjects j = some o₁ → t.registeredObjects j = some o₂ → o₁ = o₂) := by
  have hat : s.objectAt id ≠ 0 := by
    simp [Session.objectAt, hb, hlive]
  refine ⟨?_, addRegisteredObject_abort s mem id other hat, ?_, ?_⟩
  · rw [subscript_fst]
    simp [ASSERT, hat]
  · refine ⟨_, _, addRegisteredObject_ok false s mem id other (Or.inl rfl), ?_, ?_, ?_, ?_⟩
    · simp
    · intro j hj
      simp [Function.update_noteq hj]
    · simp
    · intro o ho
      simp [Function.update_noteq ho]
  · intro t j o₁ o₂ h1 h2
    rw [h1] at h2
    exact Option.some.inj h2

theorem addRegisteredObject_duplicate_witness :
    boundFive.registeredObjects 5 = some 100 ∧
    boundFive.addRegisteredObject true freshHeap 5 200 = none :=
  ⟨rfl, (addRegisteredObject_duplicate boundFive freshHeap 5 100 200 rfl (by decide)).2.1⟩

/-! ## Deregistration of objects -/

/-- The state `boundFive` is the state `addRegisteredObject( 5, 100 )` leaves. -/
theorem boundFive_reached (fatal : Bool) (mem : Heap) :
    (exhaustedSlave.addRegisteredObject fatal mem 5 100).map Prod.fst = some boundFive := by
  rw [addRegisteredObject_ok fatal exhaustedSlave mem 5 100 (Or.inr rfl)]
  rfl

/-- When the table has no entry under the identifier the object carries, `deregisterObject`
changes nothing. -/
theorem deregisterObject_no_entry (s : Session) (mem : Heap) (object : Nat)
    (h : s.registeredObjects (mem object).id = none) :
    s.deregisterObject mem object = (s, mem) := by
  simp [Session.deregisterObject, h]

/-- When the table has an entry under the identifier the object carries, `deregisterObject`
erases that entry, resets the object and frees the identifier. -/
theorem deregisterObject_entry (s : Session) (mem : Heap) (object o : Nat)
    (h : s.registeredObjects (mem object).id = some o) :
    s.deregisterObject mem object
      = ({ s with registeredObjects :=
              Function.update s.registeredObjects (mem object).id none }.freeIDs
            (mem object).id 1,
          Function.update mem object { id := INVALID_ID, sessionID := INVALID_ID }) := by
  simp [Session.deregisterObject, h]

/-- C8, the code at two failing inputs. First: in the session `boundFive` the identifier 5
is bound to the object at address 100 and no binding refers to the object at address 200,
which carries the identifier 5 of another session; `deregisterObject` of the latter removes
the binding of the former, frees the identifier 5 into the local pool and resets the
identifier and the session id of the object. Second: `dispatchPacket` drops an object packet
for the unbound identifier 0 (the failed assertion being only logged) and leaves a null entry
for 0 in the table; no binding refers to the object at address 300, which carries the invalid
identifier as every deregistered object does; `deregisterObject` of it removes the null entry
and frees the invalid identifier 0 into the local pool. -/
theorem deregisterObject_unbound_example :
    (boundFive.registeredObjects 5 = some 100 ∧
      (∀ j, boundFive.registeredObjects j ≠ some 200) ∧
      aliasHeap 200 = { id := 5, sessionID := 9 } ∧
      boundFive.idPool.free = ∅ ∧
      (boundFive.deregisterObject aliasHeap 200).1.registeredObjects 5 = none ∧
      (boundFive.deregisterObject aliasHeap 200).1.idPool.free = {5} ∧
      (boundFive.deregisterObject aliasHeap 200).2 200 = { id := 0, sessionID := 0 }) ∧
    (exhaustedSlave.dispatchPacket false 1 strayPacket = some (afterStray, []) ∧
      afterStray.registeredObjects 0 = some 0 ∧
      (∀ j, afterStray.registeredObjects j ≠ some 300) ∧
      freshHeap 300 = { id := 0, sessionID := 0 } ∧
      afterStray.idPool.free = ∅ ∧
      (afterStray.deregisterObject freshHeap 300).1.registeredObjects 0 = none ∧
      (afterStray.deregisterObject freshHeap 300).1.idPool.free = {0}) := by
  refine ⟨⟨by decide, ?_, by decide, by decide, by decide, by decide, by decide⟩,
    ⟨rfl, by decide, ?_, by decide, by decide, by decide, by decide⟩⟩
  · intro j
    by_cases hj : j = 5
    · subst hj
      decide
    · simp [boundFive, exhaustedSlave, Function.update_noteq hj]
  · intro j
    by_cases hj : j = 0
    · subst hj
      decide
    · simp [afterStray, exhaustedSlave, Function.update_noteq hj]

/-- C9, the code at the failing input: on a master session whose pool is exhausted the
object at address 100 is registered and, `genIDs( 1 )` having returned the invalid identifier,
bound under 0. Registering the object at address 200, which gets the invalid identifier too,
and then deregistering it does not restore the table: where a failed assertion is only logged
the binding of the object at address 100 is gone, that object still carrying the identifier,
and the invalid identifier 0 has been freed into the local pool; where a failed assertion is
fatal the registration aborts. -/
theorem register_deregister_example :
    (exhaustedMaster.genIDs 1 (fun _ => 0)).1 = INVALID_ID ∧
    (exhaustedMaster.registerObject false freshHeap 100 (fun _ => 0)).map
        (fun r => r.1.registeredObjects 0) = some (some 100) ∧
    ((exhaustedMaster.registerObject false freshHeap 100 (fun _ => 0)).bind
        (fun r => r.1.registerObject false r.2 200 (fun _ => 0))).map
        (fun q => ((q.1.deregisterObject q.2 200).1.registeredObjects 0,
          ((q.1.deregisterObject q.2 200).2 100).id,
          (q.1.deregisterObject q.2 200).1.idPool.free)) = some (none, 0, {0}) ∧
    (exhaustedMaster.registerObject true freshHeap 100 (fun _ => 0)).bind
        (fun r => r.1.registerObject true r.2 200 (fun _ => 0)) = none :=
  ⟨by decide, by decide, by decide, rfl⟩

/-- For an object bound under `id` (the table maps `id` to the object and the object carries
`id`), `deregisterObject` removes the binding for `id` and no other, sets the identifier and
the session id of the object to the invalid identifier, leaves every other object alone and
frees the one identifier `id` into the local pool. When the identifier `genIDs( 1 )` returns
has no live binding, `registerObject` followed by `deregisterObject` of the same object
restores every live binding of the table, and the table itself when it had no entry under
that identifier. -/
theorem deregisterObject_bound (fatal : Bool) (s : Session) (mem : Heap)
    (object id : Nat) (reply : Nat → Nat) :
    (s.registeredObjects id = some object → (mem object).id = id →
      (s.deregisterObject mem object).1.registeredObjects id = none ∧
      (∀ j, j ≠ id →
        (s.deregisterObject mem object).1.registeredObjects j = s.registeredObjects j) ∧
      (s.deregisterObject mem object).2 object
        = { id := INVALID_ID, sessionID := INVALID_ID } ∧
      (∀ o, o ≠ object → (s.deregisterObject mem object).2 o = mem o) ∧
      (s.deregisterObject mem object).1.idPool = s.idPool.freeIDs id 1 ∧
      (s.deregisterObject mem object).1.idPool.free = insert id s.idPool.free ∧
      (s.deregisterObject mem object).1.requestHandler = s.requestHandler ∧
      (s.deregisterObject mem object).1.sent = s.sent) ∧
    (s.objectAt (s.genIDs 1 reply).1 = 0 →
      ∃ s₁ mem₁, s.registerObject fatal mem object reply = some (s₁, mem₁) ∧
        (∀ j, (s₁.deregisterObject mem₁ object).1.objectAt j = s.objectAt j) ∧
        (s.registeredObjects (s.genIDs 1 reply).1 = none →
          (s₁.deregisterObject mem₁ object).1.registeredObjects = s.registeredObjects)) := by
  constructor
  · intro hb hid
    have hd := deregisterObject_entry s mem object object (by rw [hid]; exact hb)
    rw [hid] at hd
    rw [hd]
    refine ⟨?_, ?_, ?_, ?_, rfl, ?_, rfl, rfl⟩
    · simp [Session.freeIDs]
    · intro j hj
      simp [Session.freeIDs, Function.update_noteq hj]
    · simp
    · intro o ho
      simp [Function.update_noteq ho]
    · simp only [Session.freeIDs, IdPool.freeIDs]
      ext x
      simp only [Finset.mem_union, Finset.mem_Ico, Finset.mem_insert]
      constructor
      · rintro (h | h)
        · exact Or.inr h
        · exact Or.inl (by omega)
      · rintro (h | h)
        · exact Or.inr (by omega)
        · exact Or.inl h
  · intro hfree
    obtain ⟨hreg, _⟩ := genIDs_frame s 1 reply
    have hobj : (s.genIDs 1 reply).2.objectAt (s.genIDs 1 reply).1 = 0 := by
      simp only [Session.objectAt, hreg]
      exact hfree
    have hm : (Function.update mem object
        ({ id := (s.genIDs 1 reply).1, sessionID := (s.genIDs 1 reply).2.id } : Object)
        object).id = (s.genIDs 1 reply).1 := by
      simp
    have hd := deregisterObject_entry
      { (s.genIDs 1 reply).2 with
        registeredObjects :=
          Function.update (s.genIDs 1 reply).2.registeredObjects (s.genIDs 1 reply).1
            (some object) }
      (Function.update mem object
        { id := (s.genIDs 1 reply).1, sessionID := (s.genIDs 1 reply).2.id })
      object object (by rw [hm]; simp)
    rw [hm] at hd
    refine ⟨_, _, addRegisteredObject_ok fatal _ mem _ object (Or.inr hobj), ?_, ?_⟩
    · intro j
      rw [hd]
      by_cases hj : j = (s.genIDs 1 reply).1
      · subst hj
        simp only [Session.objectAt] at hfree
        simp [Session.freeIDs, Session.objectAt, hfree]
      · simp [Session.freeIDs, Session.objectAt, Function.update_noteq hj, hreg]
    · intro hnone
      rw [hd]
      funext j
      by_cases hj : j = (s.genIDs 1 reply).1
      · subst hj
        simp [Session.freeIDs, hnone]
      · simp [Session.freeIDs, Function.update_noteq hj, hreg]

theorem deregisterObject_bound_witness :
    (boundFive.registeredObjects 5 = some 100 ∧
      (Function.update freshHeap 100 { id := 5, sessionID := 7 } 100).id = 5 ∧
      (boundFive.deregisterObject
        (Function.update freshHeap 100 { id := 5, sessionID := 7 }) 100).1.registeredObjects 5
        = none) ∧
    (exhaustedSlave.objectAt (exhaustedSlave.genIDs 1 (fun _ => 4242)).1 = 0 ∧
      ∃ s₁ mem₁, exhaustedSlave.registerObject true freshHeap 100 (fun _ => 4242)
          = some (s₁, mem₁) ∧
        (s₁.deregisterObject mem₁ 100).1.registeredObjects
          = exhaustedSlave.registeredObjects) :=
  ⟨⟨rfl, by decide,
      ((deregisterObject_bound true boundFive
        (Function.update freshHeap 100 { id := 5, sessionID := 7 }) 100 5 (fun _ => 0)).1
          rfl (by decide)).1⟩,
    by decide,
    match (deregisterObject_bound true exhaustedSlave freshHeap 100 0 (fun _ => 4242)).2
      (by decide) with
    | ⟨s₁, mem₁, h1, _, h3⟩ => ⟨s₁, mem₁, h1, h3 rfl⟩⟩

/-! ## Packet dispatch -/

/-- C10: `dispatchPacket` routes on the datatype of the packet. A packet with the session
datatype is handed exactly once to the command handler of the session and to no object. A
packet with the object datatype whose `objectID` has a live binding is handed exactly once
to the handler of the object bound under that identifier, and neither to the handler of the
session nor to another object. In both cases the call returns and leaves the session as it
was. -/
theorem dispatchPacket_routes (fatal : Bool) (s : Session) (node : Nat) (packet : Packet) :
    (packet.datatype = Datatype.EQNET_SESSION →
      s.dispatchPacket fatal node packet = some (s, [Handled.session node packet])) ∧
    (∀ object, packet.datatype = Datatype.EQNET_OBJECT →
      s.registeredObjects packet.objectID = some object → object ≠ 0 →
      s.dispatchPacket fatal node packet = some (s, [Handled.object object node packet])) := by
  constructor
  · intro h
    simp [Session.dispatchPacket, h]
  · intro object h hb hlive
    simp [Session.dispatchPacket, h, Session.subscript, hb, hlive]

theorem dispatchPacket_routes_witness :
    sessionPacket.datatype = Datatype.EQNET_SESSION ∧
    boundFive.dispatchPacket true 1 sessionPacket
      = some (boundFive, [Handled.session 1 sessionPacket]) ∧
    objectPacket.datatype = Datatype.EQNET_OBJECT ∧
    boundFive.registeredObjects objectPacket.objectID = some 100 ∧
    boundFive.dispatchPacket true 1 objectPacket
      = some (boundFive, [Handled.object 100 1 objectPacket]) :=
  ⟨rfl, (dispatchPacket_routes true boundFive 1 sessionPacket).1 rfl, rfl, rfl,
    (dispatchPacket_routes true boundFive 1 objectPacket).2 100 rfl rfl (by decide)⟩

/-- C11, the claim fails where a failed assertion is fatal: an object packet for the
identifier 0, which the session `exhaustedSlave` does not bind, makes `dispatchPacket` abort
at `ASSERT( object )`; where the assertion is only logged the call returns and has invoked no
handler. -/
theorem dispatchPacket_stray_example :
    exhaustedSlave.objectAt strayPacket.objectID = 0 ∧
    exhaustedSlave.dispatchPacket true 1 strayPacket = none ∧
    (exhaustedSlave.dispatchPacket false 1 strayPacket).map Prod.snd = some [] :=
  ⟨rfl, rfl, rfl⟩

/-- C11 as amended: a packet whose datatype is neither the session nor the object datatype is
dropped: `dispatchPacket` returns, invokes no handler and leaves the session as it was. For a
packet with the object datatype whose `objectID` has no live binding no handler is invoked
either: where a failed assertion is only logged the call returns, the session being as the
lookup `_registeredObjects[id]` left it, with every pointer of the table as before; where a
failed assertion is fatal the call aborts at `ASSERT( object )`. -/
theorem dispatchPacket_drops (fatal : Bool) (s : Session) (node : Nat) (packet : Packet) :
    (∀ value, packet.datatype = Datatype.other value →
      s.dispatchPacket fatal node packet = some (s, [])) ∧
    (packet.datatype = Datatype.EQNET_OBJECT → s.objectAt packet.objectID = 0 →
      (fatal = false →
        s.dispatchPacket fatal node packet = some ((s.subscript packet.objectID).2, []) ∧
        ∀ j, (s.subscript packet.objectID).2.objectAt j = s.objectAt j) ∧
      (fatal = true → s.dispatchPacket fatal node packet = none)) := by
  constructor
  · intro value h
    simp [Session.dispatchPacket, h]
  · intro h hfree
    have hsub : (s.subscript packet.objectID).1 = 0 := by rw [subscript_fst]; exact hfree
    constructor
    · intro hf
      subst hf
      refine ⟨by simp [Session.dispatchPacket, h, hsub, ASSERT], ?_⟩
      intro j
      unfold Session.subscript
      cases hreg : s.registeredObjects packet.objectID with
      | some o => rfl
      | none =>
        by_cases hj : j = packet.objectID
        · subst hj
          simp [Session.objectAt, hreg]
        · simp [Session.objectAt, Function.update_noteq hj]
    · intro hf
      subst hf
      simp [Session.dispatchPacket, h, hsub, ASSERT]

theorem dispatchPacket_drops_witness :
    strayPacket.datatype = Datatype.EQNET_OBJECT ∧
    exhaustedSlave.objectAt strayPacket.objectID = 0 ∧
    exhaustedSlave.dispatchPacket false 1 strayPacket
      = some ((exhaustedSlave.subscript strayPacket.objectID).2, []) :=
  ⟨rfl, rfl, (((dispatchPacket_drops false exhaustedSlave 1 strayPacket).2 rfl rfl).1 rfl).1⟩

/-! ## Remote allocation -/

/-- The session in which `genIDs` blocks has registered the request and sent the packet that
`genIDs` sends. -/
theorem genIDsBlocked_sent (s : Session) (range : Nat) (reply : Nat → Nat)
    (hs : s.isMaster = false) (hfail : (s.idPool.genIDs range).1 = 0) :
    (s.genIDs range reply).2.sent = (s.genIDsBlocked range).sent ∧
    s.requestHandler.registerRequest.1 ∈ (s.genIDsBlocked range).requestHandler.requests := by
  constructor
  · simp only [Session.genIDs, Session.genIDsRequest, Session.genIDsBlocked, hfail, hs]
    simp only [ne_eq, not_true_eq_false, Bool.false_eq_true, or_self, if_false]
    split <;> rfl
  · simp [Session.genIDsBlocked, Session.genIDsRequest, RequestHandler.registerRequest]

/-- C12: remote allocation is correlated by request id. Handling a `SessionGenIDsPacket`
allocates its range from the local pool of the handling session and sends to the requesting
node exactly one reply, carrying the result of the pool and the request id of the request.
Handling a reply whose request id is pending serves the request with that request id, and no
other, with exactly the identifier of the reply, a `uint32_t`, which the cast to a pointer of
at least 32 bits and the cast back leave as it is; a reply whose request id is not pending
serves no request. So for a slave blocked in `genIDs( range )`, `range >= 1024`: the request
it sent carries the request id it registered, the master answers it with a reply of that
request id and the result of its pool, handling that reply on the blocked slave serves the
registered request with that result, and whatever the other requests are served with, `genIDs`
returns the identifier the pool of the master produced. -/
theorem remote_allocation_correlated (pointerBits : Nat) (slave master : Session)
    (packet : SessionGenIDsPacket) (reply : SessionGenIDsReplyPacket) (range node : Nat)
    (hbits : 32 ≤ pointerBits) :
    master.cmdGenIDs node packet =
      ({ master with idPool := (master.idPool.genIDs packet.range).2 },
        [(node, { sessionID := packet.sessionID
                  requestID := packet.requestID
                  id := (master.idPool.genIDs packet.range).1 })]) ∧
    (reply.id < UINT32_SIZE → reply.requestID ∈ slave.requestHandler.requests →
      slave.cmdGenIDsReply pointerBits node reply = some (reply.requestID, reply.id) ∧
      reply.id % UINT32_SIZE = reply.id) ∧
    (reply.requestID ∉ slave.requestHandler.requests →
      slave.cmdGenIDsReply pointerBits node reply = none) ∧
    (slave.isMaster = false → (slave.idPool.genIDs range).1 = 0 → MIN_ID_RANGE ≤ range →
      (master.idPool.genIDs range).1 < UINT32_SIZE →
      (slave.genIDsBlocked range).sent =
        slave.sent ++ [{ sessionID := 0
                         requestID := slave.requestHandler.registerRequest.1
                         range := range }] ∧
      (master.cmdGenIDs node { sessionID := 0
                               requestID := slave.requestHandler.registerRequest.1
                               range := range }).2 =
        [(node, { sessionID := 0
                  requestID := slave.requestHandler.registerRequest.1
                  id := (master.idPool.genIDs range).1 })] ∧
      (slave.genIDsBlocked range).cmdGenIDsReply pointerBits node
          { sessionID := 0
            requestID := slave.requestHandler.registerRequest.1
            id := (master.idPool.genIDs range).1 }
        = some (slave.requestHandler.registerRequest.1, (master.idPool.genIDs range).1) ∧
      ∀ served : Nat → Nat,
        RequestHandler.servedWith
          ((slave.genIDsBlocked range).cmdGenIDsReply pointerBits node
            { sessionID := 0
              requestID := slave.requestHandler.registerRequest.1
              id := (master.idPool.genIDs range).1 }) served →
        (slave.genIDs range served).1 = (master.idPool.genIDs range).1) := by
  have hpow : UINT32_SIZE ≤ 2 ^ pointerBits := by
    unfold UINT32_SIZE
    exact Nat.pow_le_pow_right (by decide) hbits
  have hserve : ∀ (t : Session) (r : SessionGenIDsReplyPacket), r.id < UINT32_SIZE →
      r.requestID ∈ t.requestHandler.requests →
      t.cmdGenIDsReply pointerBits node r = some (r.requestID, r.id) := by
    intro t r hr hmem
    simp [Session.cmdGenIDsReply, RequestHandler.serveRequest, hmem,
      Nat.mod_eq_of_lt (lt_of_lt_of_le hr hpow)]
  refine ⟨rfl, fun hid hmem => ⟨hserve slave reply hid hmem, Nat.mod_eq_of_lt hid⟩, ?_, ?_⟩
  · intro hmem
    simp [Session.cmdGenIDsReply, RequestHandler.serveRequest, hmem]
  intro hs hfail hrange hu32
  have hr : (if range > MIN_ID_RANGE then range else MIN_ID_RANGE) = range := by
    by_cases h : range > MIN_ID_RANGE
    · rw [if_pos h]
    · rw [if_neg h]
      exact le_antisymm hrange (not_lt.mp h)
  have hblocked := hserve (slave.genIDsBlocked range)
    { sessionID := 0
      requestID := slave.requestHandler.registerRequest.1
      id := (master.idPool.genIDs range).1 } hu32
    (genIDsBlocked_sent slave range (fun _ => 0) hs hfail).2
  refine ⟨?_, rfl, hblocked, ?_⟩
  · simp only [Session.genIDsBlocked, Session.genIDsRequest, hfail, hr]
  · intro served hserved
    have hval : served slave.requestHandler.registerRequest.1 = (master.idPool.genIDs range).1 :=
      hserved _ _ hblocked
    have hp := IdPool.genIDs_fail _ _ hfail
    simp [Session.genIDs, Session.genIDsRequest, hs, hp, RequestHandler.waitRequest, hrange,
      hval, Nat.mod_eq_of_lt hu32]

theorem remote_allocation_correlated_witness :
    exhaustedSlave.isMaster = false ∧ (exhaustedSlave.idPool.genIDs 2000).1 = 0 ∧
    (richMaster.idPool.genIDs 2000).1 = 1 ∧
    exhaustedSlave.requestHandler.registerRequest.1 = 1 ∧
    (exhaustedSlave.genIDs 2000 (fun requestID => if requestID = 1 then 1 else 77)).1
      = (richMaster.idPool.genIDs 2000).1 :=
  have h1 : (richMaster.idPool.genIDs 2000).1 = 1 :=
    congrArg Prod.fst (IdPool.genIDs_create 2000 5000 (by decide) (by decide))
  have h := (remote_allocation_correlated 64 exhaustedSlave richMaster
      { sessionID := 0, requestID := 1, range := 2000 }
      { sessionID := 0, requestID := 1, id := 1 } 2000 1 (by decide)).2.2.2
        rfl (by decide) (by decide) (by rw [h1]; decide)
  ⟨rfl, by decide, h1, rfl,
    h.2.2.2 (fun requestID => if requestID = 1 then 1 else 77) (by
      rw [h.2.2.1]
      intro requestID result hsome
      cases hsome
      rw [h1]
      rfl)⟩

/-- C19, the code at the failing input: on a master session whose pool is exhausted
`genIDs( 1 )` returns the invalid identifier, and `registerObject` binds the object at address
100 under it all the same: the table has a binding with key 0 and the object carries the id
of the session. This holds where a failed assertion is fatal and where it is only logged. -/
theorem registerObject_invalid_example :
    (exhaustedMaster.genIDs 1 (fun _ => 0)).1 = INVALID_ID ∧
    exhaustedMaster.registeredObjects 0 = none ∧
    (exhaustedMaster.registerObject true freshHeap 100 (fun _ => 0)).map
        (fun r => (r.1.registeredObjects 0, r.2 100))
      = some (some 100, { id := 0, sessionID := 7 }) ∧
    (exhaustedMaster.registerObject false freshHeap 100 (fun _ => 0)).map
        (fun r => (r.1.registeredObjects 0, r.2 100))
      = some (some 100, { id := 0, sessionID := 7 }) :=
  ⟨by decide, rfl, by decide, by decide⟩

end eqNet

namespace eq.net

open NamedPipeConnection

/-! ## The example states are reached -/

theorem connectedPipe_reached (fatal : Bool) (readFD : Int) :
    (create readFD).connect fatal goodOS = some (true, connectedPipe) := by
  cases fatal <;> rfl

theorem listeningPipe_reached (fatal : Bool) :
    ((create 0).listen fatal goodOS).bind (fun r => r.2.acceptNB fatal goodOS)
      = some listeningPipe := by
  cases fatal <;> rfl

/-! ## Establishment -/

/-- C13: on a connection whose state is not `Closed`, `connect()` and `listen()` return
failure and leave the connection as it was: the state is the state before the call, no
notification has fired and the operating system was not called. In particular `connect()` on
a `Connected` connection returns failure and the state stays `Connected`. -/
theorem connect_listen_not_closed (fatal : Bool) (c : NamedPipeConnection) (os : Win32)
    (h : c.state ≠ State.STATE_CLOSED) :
    c.connect fatal os = some (false, c) ∧ c.listen fatal os = some (false, c) ∧
    (c.state = State.STATE_CONNECTED →
      (c.connect fatal os).map (fun r => (r.1, r.2.state, r.2.fired))
        = some (false, State.STATE_CONNECTED, c.fired)) := by
  have h1 : c.connect fatal os = some (false, c) := by simp [NamedPipeConnection.connect, h]
  refine ⟨h1, by simp [NamedPipeConnection.listen, h], fun hc => ?_⟩
  rw [h1, ← hc]
  rfl

theorem connect_listen_not_closed_witness :
    connectedPipe.state ≠ State.STATE_CLOSED ∧
    connectedPipe.connect true goodOS = some (false, connectedPipe) ∧
    connectedPipe.listen true goodOS = some (false, connectedPipe) :=
  ⟨by decide, (connect_listen_not_closed true connectedPipe goodOS (by decide)).1,
    (connect_listen_not_closed true connectedPipe goodOS (by decide)).2.1⟩

/-- C20, the code at the failing input: `connect()` on a `Closed` connection whose pipe
cannot be opened returns false and leaves the connection in the state `Connecting`, one
notification having fired. From there `connect()` and `listen()` return false and `close()`
does nothing, so the connection stays in `Connecting`. -/
theorem connect_failure_example :
    (create 0).state = State.STATE_CLOSED ∧
    ((create 0).connect true failingOS).map (fun r => (r.1, r.2.state, r.2.fired))
      = some (false, State.STATE_CONNECTING, [State.STATE_CONNECTING]) ∧
    (((create 0).connect true failingOS).bind (fun r => r.2.connect true goodOS)).map
        (fun r => (r.1, r.2.state)) = some (false, State.STATE_CONNECTING) ∧
    (((create 0).connect true failingOS).bind (fun r => r.2.listen true goodOS)).map
        (fun r => (r.1, r.2.state)) = some (false, State.STATE_CONNECTING) ∧
    (((create 0).connect true failingOS).bind (fun r => r.2.close true)).map
        (fun r => r.state) = some State.STATE_CONNECTING := by
  decide

/-! ## Closing -/

theorem exitAIORead_frame (c : NamedPipeConnection) :
    c.exitAIORead.state = c.state ∧ c.exitAIORead.readFD = c.readFD ∧
    c.exitAIORead.fired = c.fired ∧ c.exitAIORead.hEvent = 0 := by
  unfold NamedPipeConnection.exitAIORead
  by_cases h : c.hEvent ≠ 0
  · rw [if_pos h]
    exact ⟨rfl, rfl, rfl, rfl⟩
  · rw [if_neg h]
    exact ⟨rfl, rfl, rfl, not_not.mp h⟩

/-- On a connection that is neither `Connected` nor `Listening`, `close()` does nothing. -/
theorem close_of_not_open (fatal : Bool) (c : NamedPipeConnection)
    (h : ¬ (c.state = State.STATE_CONNECTED ∨ c.state = State.STATE_LISTENING)) :
    c.close fatal = some c := by
  simp only [NamedPipeConnection.close, h, not_false_eq_true, if_true]

/-- On a `Connected` or `Listening` connection whose handle is not null, or where a failed
assertion is only logged, `close()` ends in the state `Closed` with an invalid handle and
without event, fires exactly one notification, and a second `close()` changes nothing. -/
theorem close_of_open (fatal : Bool) (c : NamedPipeConnection)
    (hopen : c.state = State.STATE_CONNECTED ∨ c.state = State.STATE_LISTENING)
    (hok : fatal = false ∨ c.readFD ≠ 0) :
    ∃ c', c.close fatal = some c' ∧ c'.state = State.STATE_CLOSED ∧
      c'.readFD = INVALID_HANDLE_VALUE ∧ c'.hEvent = 0 ∧
      c'.fired = c.fired ++ [State.STATE_CLOSED] ∧ c'.close fatal = some c' := by
  obtain ⟨hs, hfd, hfired, hev⟩ := exitAIORead_frame c
  have hexit : (if c.isListening = true then c.exitAIOAccept else c.exitAIORead)
      = c.exitAIORead := by
    simp [NamedPipeConnection.exitAIOAccept]
  have hassert : EQASSERT fatal (decide (c.exitAIORead.readFD ≠ 0)) = some () := by
    rw [hfd]
    rcases hok with h | h
    · simp [EQASSERT, h]
    · simp [EQASSERT, h]
  have hclose : c.close fatal = some (NamedPipeConnection.fireStateChanged
      { c.exitAIORead with
        calls := c.exitAIORead.calls ++ [Call.DisconnectNamedPipe c.exitAIORead.readFD]
        readFD := INVALID_HANDLE_VALUE
        state := State.STATE_CLOSED }) := by
    unfold NamedPipeConnection.close
    rw [if_neg (not_not.mpr hopen)]
    simp only [hexit]
    rw [hassert]
  refine ⟨_, hclose, rfl, rfl, hev, ?_, ?_⟩
  · simp [NamedPipeConnection.fireStateChanged, hfired]
  · exact close_of_not_open fatal _ (by simp [NamedPipeConnection.fireStateChanged])

/-- On a `Connected` or `Listening` connection whose handle is null, `close()` aborts where a
failed assertion is fatal. -/
theorem close_of_null (c : NamedPipeConnection)
    (hopen : c.state = State.STATE_CONNECTED ∨ c.state = State.STATE_LISTENING)
    (hnull : c.readFD = 0) : c.close true = none := by
  obtain ⟨_, hfd, _, _⟩ := exitAIORead_frame c
  have hexit : (if c.isListening = true then c.exitAIOAccept else c.exitAIORead)
      = c.exitAIORead := by
    simp [NamedPipeConnection.exitAIOAccept]
  have hassert : EQASSERT true (decide (c.exitAIORead.readFD ≠ 0)) = none := by
    rw [hfd, hnull]
    rfl
  unfold NamedPipeConnection.close
  rw [if_neg (not_not.mpr hopen)]
  simp only [hexit]
  rw [hassert]

/-- The handle `close()` leaves is the handle the connection had or `INVALID_HANDLE_VALUE`. -/
theorem close_readFD (fatal : Bool) (c c' : NamedPipeConnection)
    (h : c.close fatal = some c') :
    c'.readFD = c.readFD ∨ c'.readFD = INVALID_HANDLE_VALUE := by
  by_cases hopen : c.state = State.STATE_CONNECTED ∨ c.state = State.STATE_LISTENING
  · by_cases hok : fatal = false ∨ c.readFD ≠ 0
    · obtain ⟨c'', hc'', _, hfd, _⟩ := close_of_open fatal c hopen hok
      rw [hc''] at h
      rw [← Option.some.inj h]
      exact Or.inr hfd
    · have hf : fatal = true := by
        cases fatal
        · exact absurd (Or.inl rfl) hok
        · rfl
      have hnull : c.readFD = 0 := not_not.mp (fun hne => hok (Or.inr hne))
      subst hf
      rw [close_of_null c hopen hnull] at h
      exact absurd h (by simp)
  · rw [close_of_not_open fatal c hopen] at h
    rw [← Option.some.inj h]
    exact Or.inl rfl

/-- C14, the code at the failing input, where a failed assertion is fatal. `listen()` creates
the event and does not touch the handle, which the constructor does not initialise: after
`listen()` on a freshly constructed connection whose handle happens to be null the connection
is `Listening` with a null handle. There `close()` aborts at the assertion
`EQASSERT( _readFD > 0 )`: the connection does not end in `Closed` and no notification fires.
Where the assertion is only logged, `close()` ends in `Closed` with one more notification. On
a handle that is not null the assertion holds: the listening connection a successful
`acceptSync()` leaves, whose handle is `INVALID_HANDLE_VALUE`, is closed by `close()`. -/
theorem close_abort_example :
    ((create 0).listen true goodOS).map (fun r => (r.2.state, r.2.readFD, r.2.close true))
      = some (State.STATE_LISTENING, 0, none) ∧
    (((create 0).listen false goodOS).bind (fun r => r.2.close false)).map
        (fun c => (c.state, c.readFD, c.fired))
      = some (State.STATE_CLOSED, INVALID_HANDLE_VALUE,
          [State.STATE_CONNECTING, State.STATE_LISTENING, State.STATE_CLOSED]) ∧
    ((listeningPipe.acceptSync true goodOS).bind (fun r => r.2.close true)).map
        (fun c => (c.state, c.readFD, c.fired))
      = some (State.STATE_CLOSED, INVALID_HANDLE_VALUE,
          [State.STATE_CONNECTING, State.STATE_LISTENING, State.STATE_CLOSED]) := by
  decide

/-! ## Transfers -/

/-- C16, the code at the failing inputs. On the connected connection `connectedPipe` a
completion of the read that fails makes `readSync` close the connection and return 0, the
value it returns for a completed read that has moved no byte, after which the connection is
still `Connected`. On a listening connection whose handle has gone to an accepted connection
`readSync` returns -1 and the connection stays `Listening`. -/
theorem readSync_failure_example :
    (connectedPipe.readSync true 100 failingOS).map (fun r => (r.1, r.2.state))
      = some (0, State.STATE_CLOSED) ∧
    (connectedPipe.readSync true 100 emptyReadOS).map (fun r => (r.1, r.2.state))
      = some (0, State.STATE_CONNECTED) ∧
    ((listeningPipe.acceptSync true goodOS).bind
        (fun r => r.2.readSync true 100 goodOS)).map (fun r => (r.1, r.2.state))
      = some (-1, State.STATE_LISTENING) := by
  decide

theorem EQ_MIN_eq_min (a b : Nat) : EQ_MIN a b = min a b := by
  unfold EQ_MIN
  by_cases h : a < b
  · rw [if_pos h, min_eq_left (le_of_lt h)]
  · rw [if_neg h, min_eq_right (not_lt.mp h)]

/-- The length handed to the operating system fits a `DWORD`: the cast does not truncate. -/
theorem EQ_MIN_dword (a b : Nat) (hb : b < DWORD_SIZE) :
    EQ_MIN a b % DWORD_SIZE = min a b := by
  rw [EQ_MIN_eq_min]
  exact Nat.mod_eq_of_lt (lt_of_le_of_lt (min_le_right a b) hb)

/-- The calls `close()` makes are appended to the calls made before, and none of them is a
transfer. -/
theorem close_calls (fatal : Bool) (c c' : NamedPipeConnection) (h : c.close fatal = some c') :
    ∃ rest, c'.calls = c.calls ++ rest ∧
      (∀ handle n, Call.ReadFile handle n ∉ rest) ∧
      (∀ handle n, Call.WriteFile handle n ∉ rest) := by
  unfold NamedPipeConnection.close at h
  by_cases hopen : c.state = State.STATE_CONNECTED ∨ c.state = State.STATE_LISTENING
  · have hexit : (if c.isListening = true then c.exitAIOAccept else c.exitAIORead)
        = c.exitAIORead := by
      simp [NamedPipeConnection.exitAIOAccept]
    rw [if_neg (not_not.mpr hopen)] at h
    simp only [hexit] at h
    cases ha : EQASSERT fatal (decide (c.exitAIORead.readFD ≠ 0)) with
    | none =>
      rw [ha] at h
      exact absurd h (by simp)
    | some u =>
      rw [ha] at h
      simp only [Option.some.injEq] at h
      subst h
      unfold NamedPipeConnection.exitAIORead
      by_cases hev : c.hEvent ≠ 0
      · refine ⟨[Call.CloseHandle c.hEvent, Call.DisconnectNamedPipe c.readFD], ?_, ?_, ?_⟩
        · simp [NamedPipeConnection.fireStateChanged, hev]
        · intro handle n
          simp
        · intro handle n
          simp
      · refine ⟨[Call.DisconnectNamedPipe c.readFD], ?_, ?_, ?_⟩
        · simp [NamedPipeConnection.fireStateChanged, hev]
        · intro handle n
          simp
        · intro handle n
          simp
  · simp only [hopen, not_false_eq_true, if_true, Option.some.injEq] at h
    subst h
    exact ⟨[], by simp, by simp, by simp⟩

/-- C17: the chunk cap of a call. On a connection that is not `Closed`, `readNB` asks the
operating system for exactly `min bytes 257536` bytes, in one `ReadFile` call; on a
connection with a valid handle, `write` asks it to send exactly `min bytes 128768` bytes, in
one `WriteFile` call. Both lengths fit the 32 bits of a `DWORD`, so the cast does not
truncate them. `write` returns the count the operating system reports when the call
succeeds, which is at most `min bytes 128768` when the operating system writes no more than
it was asked to, and -1 when the call fails. This holds for every `bytes`, those of 64 bits
included. -/
theorem chunk_cap (fatal : Bool) (c : NamedPipeConnection) (bytes : Nat) (os : Win32) :
    (c.state ≠ State.STATE_CLOSED →
      (os.readFile = true ∨ os.ioPending = true →
        c.readNB fatal bytes os =
          some { c with calls := c.calls ++ [Call.ResetEvent c.hEvent,
                                             Call.ReadFile c.readFD (min bytes 257536)] }) ∧
      (∀ c', c.readNB fatal bytes os = some c' →
        ∃ rest, c'.calls = c.calls ++ [Call.ResetEvent c.hEvent,
                                       Call.ReadFile c.readFD (min bytes 257536)] ++ rest ∧
          ∀ handle n, Call.ReadFile handle n ∉ rest)) ∧
    (c.readFD ≠ INVALID_HANDLE_VALUE →
      (c.write bytes os).2 =
        { c with calls := c.calls ++ [Call.WriteFile c.readFD (min bytes 128768)] } ∧
      (os.writeFile = true → (c.write bytes os).1 = (os.wrote : Int)) ∧
      (os.writeFile = false → (c.write bytes os).1 = -1) ∧
      (os.wrote ≤ min bytes 128768 →
        (c.write bytes os).1 ≤ ((min bytes 128768 : Nat) : Int))) ∧
    min bytes 257536 < DWORD_SIZE ∧ min bytes 128768 < DWORD_SIZE ∧
    EQ_MIN bytes EQ_READ_BUFFER_SIZE % DWORD_SIZE = min bytes 257536 ∧
    EQ_MIN bytes EQ_WRITE_BUFFER_SIZE % DWORD_SIZE = min bytes 128768 := by
  have hr : EQ_MIN bytes EQ_READ_BUFFER_SIZE % DWORD_SIZE = min bytes 257536 :=
    EQ_MIN_dword bytes EQ_READ_BUFFER_SIZE (by decide)
  have hw : EQ_MIN bytes EQ_WRITE_BUFFER_SIZE % DWORD_SIZE = min bytes 128768 :=
    EQ_MIN_dword bytes EQ_WRITE_BUFFER_SIZE (by decide)
  have hr32 : min bytes 257536 < DWORD_SIZE :=
    lt_of_le_of_lt (min_le_right _ _) (by decide)
  have hw32 : min bytes 128768 < DWORD_SIZE :=
    lt_of_le_of_lt (min_le_right _ _) (by decide)
  refine ⟨fun hstate => ⟨?_, ?_⟩, fun hfd => ⟨?_, ?_, ?_, ?_⟩, hr32, hw32, hr, hw⟩
  · intro hok
    have hnot : ¬ (os.readFile = false ∧ os.ioPending = false) := by
      rcases hok with h | h <;> simp [h]
    simp only [NamedPipeConnection.readNB, hstate, if_false, hr, hnot]
  · intro c' hc'
    simp only [NamedPipeConnection.readNB, hstate, if_false, hr] at hc'
    by_cases hfail : os.readFile = false ∧ os.ioPending = false
    · rw [if_pos hfail] at hc'
      obtain ⟨rest, hrest, hnoread, _⟩ := close_calls fatal _ c' hc'
      exact ⟨rest, hrest, hnoread⟩
    · rw [if_neg hfail] at hc'
      refine ⟨[], ?_, by simp⟩
      rw [← Option.some.inj hc']
      simp
  · simp only [NamedPipeConnection.write, hfd, if_false, hw]
    split <;> rfl
  · intro hok
    simp [NamedPipeConnection.write, hfd, hok]
  · intro hfail
    simp [NamedPipeConnection.write, hfd, hfail]
  · intro hle
    by_cases hok : os.writeFile = true
    · simp only [NamedPipeConnection.write, hfd, if_false, hok, if_true]
      exact_mod_cast hle
    · simp only [NamedPipeConnection.write, hfd, if_false, hok]
      have : (0 : Int) ≤ ((min bytes 128768 : Nat) : Int) := Int.natCast_nonneg _
      simp only [Bool.false_eq_true, if_false]
      omega

theorem chunk_cap_witness :
    connectedPipe.state ≠ State.STATE_CLOSED ∧
    connectedPipe.readFD ≠ INVALID_HANDLE_VALUE ∧
    connectedPipe.readNB true (2 ^ 40) goodOS =
      some { connectedPipe with
             calls := connectedPipe.calls ++ [Call.ResetEvent connectedPipe.hEvent,
               Call.ReadFile connectedPipe.readFD (min (2 ^ 40) 257536)] } ∧
    (connectedPipe.write (2 ^ 40) goodOS).2 =
      { connectedPipe with
        calls := connectedPipe.calls ++ [Call.WriteFile connectedPipe.readFD
          (min (2 ^ 40) 128768)] } ∧
    (connectedPipe.write (2 ^ 40) goodOS).1 ≤ ((min (2 ^ 40) 128768 : Nat) : Int) :=
  ⟨by decide, by decide,
    ((chunk_cap true connectedPipe (2 ^ 40) goodOS).1 (by decide)).1 (Or.inl rfl),
    ((chunk_cap true connectedPipe (2 ^ 40) goodOS).2.1 (by decide)).1,
    ((chunk_cap true connectedPipe (2 ^ 40) goodOS).2.1 (by decide)).2.2.2 (by decide)⟩

/-! ## Accepting -/

/-- On a listening connection, `acceptNB()` creates a pipe instance and, when the accept
is pending on it, leaves the connection listening on that instance. -/
theorem acceptNB_arms (fatal : Bool) (c : NamedPipeConnection) (os : Win32)
    (hl : c.state = State.STATE_LISTENING)
    (hpipe : os.createNamedPipe ≠ INVALID_HANDLE_VALUE) (hconn : os.connectNamedPipe = false)
    (herr : os.connectError = ConnectError.ERROR_IO_PENDING) :
    c.acceptNB fatal os =
      some { c with readFD := os.createNamedPipe
                    calls := c.calls ++ [Call.ResetEvent c.hEvent, Call.CreateNamedPipe,
                      Call.ConnectNamedPipe os.createNamedPipe] } := by
  have ha1 : EQASSERT fatal (decide (c.state = State.STATE_LISTENING)) = some () := by
    simp [EQASSERT, hl]
  have ha2 : EQASSERT fatal (!os.connectNamedPipe) = some () := by
    simp [EQASSERT, hconn]
  simp only [NamedPipeConnection.acceptNB, ha1, hpipe, if_false,
    NamedPipeConnection.connectToNewClient, ha2, herr, Option.map_some']
  simp

/-- C15, the claim fails on the last point: the listening connection `listeningPipe` is
armed, an accept being pending on the pipe instance of handle 5. A successful `acceptSync()`
returns a new connection in state `Connected` that holds the handle 5 and leaves the
listening connection in state `Listening` with an invalid handle; its only call to the
operating system on the listening connection is `GetOverlappedResult`, so no accept is
started and the connection is not armed. -/
theorem acceptSync_not_rearmed_example :
    listeningPipe.armed = true ∧
    (listeningPipe.acceptSync true goodOS).map
        (fun r => (r.1.map (fun n => (n.state, n.readFD)), r.2.state, r.2.readFD, r.2.armed,
          r.2.calls))
      = some (some (State.STATE_CONNECTED, 5), State.STATE_LISTENING, INVALID_HANDLE_VALUE,
          false, listeningPipe.calls ++ [Call.GetOverlappedResult 5]) := by
  decide

/-- C15 as amended: on a connection that is not `Listening`, `acceptSync()` returns null
and changes nothing. On a `Listening` connection whose pending accept completes, and unless
the event of the new connection cannot be created where the assertion on it is fatal, it
returns a new connection in state `Connected` that holds the accepted handle; the original
connection stays `Listening`, holds an invalid handle, has fired no notification and is not
armed: `acceptSync()` calls `GetOverlappedResult` and nothing else on it. It is armed again
by the next `acceptNB()` that creates a pipe instance on which the accept is pending. Where
the assertion is fatal and the event cannot be created, `acceptSync()` aborts. -/
theorem acceptSync_accepts (fatal : Bool) (c : NamedPipeConnection) (os os' : Win32) :
    (c.state ≠ State.STATE_LISTENING → c.acceptSync fatal os = some (none, c)) ∧
    (c.state = State.STATE_LISTENING → os.overlappedResult = true →
      (fatal = false ∨ os.createEvent ≠ 0) →
      ∃ new listener, c.acceptSync fatal os = some (some new, listener) ∧
        new.state = State.STATE_CONNECTED ∧ new.readFD = c.readFD ∧
        new.hEvent = os.createEvent ∧ new.fired = [] ∧
        listener.state = State.STATE_LISTENING ∧
        listener.readFD = INVALID_HANDLE_VALUE ∧
        listener.fired = c.fired ∧
        listener.calls = c.calls ++ [Call.GetOverlappedResult c.readFD] ∧
        listener.armed = false ∧
        (os'.createNamedPipe ≠ INVALID_HANDLE_VALUE → os'.connectNamedPipe = false →
          os'.connectError = ConnectError.ERROR_IO_PENDING →
          ∃ rearmed, listener.acceptNB fatal os' = some rearmed ∧
            rearmed.state = State.STATE_LISTENING ∧
            rearmed.readFD = os'.createNamedPipe ∧ rearmed.armed = true)) ∧
    (c.state = State.STATE_LISTENING → os.overlappedResult = true → fatal = true →
      os.createEvent = 0 → c.acceptSync fatal os = none) := by
  refine ⟨fun h => by simp [NamedPipeConnection.acceptSync, h], fun hl hres hev => ?_,
    fun hl hres hf hev => ?_⟩
  · have hassert : EQASSERT fatal (decide (os.createEvent ≠ 0)) = some () := by
      rcases hev with h | h
      · simp [EQASSERT, h]
      · simp [EQASSERT, h]
    refine ⟨{ state := State.STATE_CONNECTED
              readFD := c.readFD
              hEvent := os.createEvent
              fired := []
              calls := [Call.CreateEvent] },
      { c with calls := c.calls ++ [Call.GetOverlappedResult c.readFD]
               readFD := INVALID_HANDLE_VALUE }, ?_, ?_⟩
    · have hassert' : EQASSERT fatal (!decide (os.createEvent = 0)) = some () := by
        simpa using hassert
      simp [NamedPipeConnection.acceptSync, hl, hres, NamedPipeConnection.initAIORead,
        hassert', NamedPipeConnection.create]
    · refine ⟨rfl, rfl, rfl, rfl, hl, rfl, rfl, rfl, ?_, ?_⟩
      · simp [NamedPipeConnection.armed]
      · intro hpipe hconn herr
        refine ⟨_, acceptNB_arms fatal _ os' hl hpipe hconn herr, hl, rfl, ?_⟩
        simp [NamedPipeConnection.armed, hl, hpipe]
  · subst hf
    simp [NamedPipeConnection.acceptSync, hl, hres, NamedPipeConnection.initAIORead, hev,
      EQASSERT]

theorem acceptSync_accepts_witness :
    listeningPipe.state = State.STATE_LISTENING ∧ goodOS.overlappedResult = true ∧
    ∃ new listener, listeningPipe.acceptSync true goodOS = some (some new, listener) ∧
      new.state = State.STATE_CONNECTED ∧ new.readFD = listeningPipe.readFD ∧
      listener.state = State.STATE_LISTENING ∧
      listener.readFD = INVALID_HANDLE_VALUE ∧ listener.armed = false :=
  ⟨rfl, rfl,
    match (acceptSync_accepts true listeningPipe goodOS goodOS).2.1 rfl rfl
      (Or.inr (by decide)) with
    | ⟨new, listener, h, h1, h2, _, _, h5, h6, _, _, h9, _⟩ =>
      ⟨new, listener, h, h1, h2, h5, h6, h9⟩⟩

/-! ## Transport failure -/

theorem listenedPipe_reached (fatal : Bool) (readFD : Int) :
    (create readFD).listen fatal goodOS = some (true, listenedPipe readFD) := by
  cases fatal <;> rfl

theorem listenedPipe_reachable (fatal : Bool) (readFD : Int) :
    Reachable fatal (create readFD) (listenedPipe readFD) :=
  Reachable.listen (create readFD) goodOS (true, listenedPipe readFD)
    Reachable.start (listenedPipe_reached fatal readFD)

theorem listeningPipe_reachable (fatal : Bool) (readFD : Int) :
    Reachable fatal (create readFD) listeningPipe :=
  Reachable.acceptNB (listenedPipe readFD) goodOS listeningPipe
    (listenedPipe_reachable fatal readFD) (by decide) (by cases fatal <;> rfl)

theorem movedListener_reached (fatal : Bool) :
    listeningPipe.acceptSync fatal goodOS = some (some acceptedPipe, movedListener) := by
  cases fatal <;> rfl

theorem movedListener_reachable (fatal : Bool) (readFD : Int) :
    Reachable fatal (create readFD) movedListener :=
  Reachable.acceptSync listeningPipe goodOS (some acceptedPipe, movedListener)
    (listeningPipe_reachable fatal readFD) (movedListener_reached fatal)

/-- C21, the claim fails in these reachable states. After `listen()`, `acceptNB()` and a
successful `acceptSync()` the listening connection is `Listening` and its handle is
`INVALID_HANDLE_VALUE`, not a valid handle: the accepted handle is held by the connection
`acceptSync()` returned, which is `Connected`. The assertion of `close()` holds there all the
same, the handle not being null, and `close()` ends in `Closed`. After `listen()` alone the
connection is `Listening` and its handle is the value the constructor left, `listen()` not
touching it: `INVALID_HANDLE_VALUE` if it was that, and if it was null the assertion of
`close()` fails and `close()` aborts where a failed assertion is fatal. -/
theorem reachable_invalid_handle_example :
    (Reachable true (create 7) movedListener ∧ Reachable false (create 7) movedListener ∧
      movedListener.state = State.STATE_LISTENING ∧
      movedListener.readFD = INVALID_HANDLE_VALUE ∧
      Reachable true (create 7) acceptedPipe ∧ acceptedPipe.state = State.STATE_CONNECTED ∧
      acceptedPipe.readFD = 5 ∧
      (movedListener.close true).map (fun c => c.state) = some State.STATE_CLOSED) ∧
    (Reachable true (create INVALID_HANDLE_VALUE) (listenedPipe INVALID_HANDLE_VALUE) ∧
      (listenedPipe INVALID_HANDLE_VALUE).state = State.STATE_LISTENING ∧
      (listenedPipe INVALID_HANDLE_VALUE).readFD = INVALID_HANDLE_VALUE) ∧
    (Reachable true (create 0) (listenedPipe 0) ∧
      (listenedPipe 0).state = State.STATE_LISTENING ∧ (listenedPipe 0).readFD = 0 ∧
      EQASSERT true (decide ((listenedPipe 0).readFD ≠ 0)) = none ∧
      (listenedPipe 0).close true = none) :=
  ⟨⟨movedListener_reachable true 7, movedListener_reachable false 7, rfl, rfl,
      Reachable.accepted listeningPipe goodOS acceptedPipe movedListener
        (listeningPipe_reachable true 7) (movedListener_reached true),
      rfl, rfl, by decide⟩,
    ⟨listenedPipe_reachable true INVALID_HANDLE_VALUE, rfl, rfl⟩,
    ⟨listenedPipe_reachable true 0, rfl, rfl, by decide, by decide⟩⟩

/-- The handle `_createNamedPipe()` leaves is the handle the connection had or the one
`CreateFile` returned. -/
theorem createNamedPipe_readFD (c : NamedPipeConnection) (os : Win32) :
    (c.createNamedPipe os).2.readFD = c.readFD ∨
      (c.createNamedPipe os).2.readFD = os.createFile := by
  simp only [NamedPipeConnection.createNamedPipe]
  split_ifs <;> simp

/-- The method `_initAIORead()` does not touch the handle. -/
theorem initAIORead_readFD (fatal : Bool) (c c' : NamedPipeConnection) (os : Win32)
    (h : c.initAIORead fatal os = some c') : c'.readFD = c.readFD := by
  simp only [NamedPipeConnection.initAIORead] at h
  split at h
  · exact absurd h (by simp)
  · rw [← Option.some.inj h]

/-- The handle `connect()` leaves is the handle the connection had or the one `CreateFile`
returned. -/
theorem connect_readFD (fatal : Bool) (c : NamedPipeConnection) (os : Win32)
    (r : Bool × NamedPipeConnection) (h : c.connect fatal os = some r) :
    r.2.readFD = c.readFD ∨ r.2.readFD = os.createFile := by
  simp only [NamedPipeConnection.connect] at h
  split_ifs at h with hs hr
  · rw [← Option.some.inj h]
    exact Or.inl rfl
  · rw [← Option.some.inj h]
    exact createNamedPipe_readFD _ os
  · split at h
    · exact absurd h (by simp)
    · rename_i c2 hc2
      rw [← Option.some.inj h]
      have h2 := initAIORead_readFD fatal _ c2 os hc2
      have h1 := createNamedPipe_readFD
        (NamedPipeConnection.fireStateChanged { c with state := State.STATE_CONNECTING }) os
      simp only [NamedPipeConnection.fireStateChanged] at h1 h2 ⊢
      rw [h2]
      exact h1

/-- The method `listen()` does not touch the handle. -/
theorem listen_readFD (fatal : Bool) (c : NamedPipeConnection) (os : Win32)
    (r : Bool × NamedPipeConnection) (h : c.listen fatal os = some r) :
    r.2.readFD = c.readFD := by
  simp only [NamedPipeConnection.listen, NamedPipeConnection.initAIOAccept] at h
  split_ifs at h with hs
  · rw [← Option.some.inj h]
  · split at h
    · exact absurd h (by simp)
    · rename_i c2 hc2
      rw [← Option.some.inj h]
      have h2 := initAIORead_readFD fatal _ c2 os hc2
      simp only [NamedPipeConnection.fireStateChanged] at h2 ⊢
      rw [h2]

/-- The handle `acceptNB()` leaves is the one `CreateNamedPipe` returned or
`INVALID_HANDLE_VALUE`. -/
theorem acceptNB_readFD (fatal : Bool) (c c' : NamedPipeConnection) (os : Win32)
    (h : c.acceptNB fatal os = some c') :
    c'.readFD = os.createNamedPipe ∨ c'.readFD = INVALID_HANDLE_VALUE := by
  simp only [NamedPipeConnection.acceptNB] at h
  split at h
  · exact absurd h (by simp)
  · split_ifs at h with hp
    · rcases close_readFD fatal _ c' h with h1 | h1
      · exact Or.inl h1
      · exact Or.inr h1
    · simp only [NamedPipeConnection.connectToNewClient, Option.map_eq_some'] at h
      obtain ⟨a, h, ha⟩ := h
      rw [← ha]
      split at h
      · exact absurd h (by simp)
      · split at h
        · rw [← Option.some.inj h]
          exact Or.inl rfl
        · split_ifs at h <;> (rw [← Option.some.inj h]; exact Or.inl rfl)
        · rw [← Option.some.inj h]
          exact Or.inl rfl

/-- The handle `acceptSync()` leaves on the connection it is called on is the handle the
connection had or `INVALID_HANDLE_VALUE`; the connection it returns holds the handle the
connection had. -/
theorem acceptSync_readFD (fatal : Bool) (c : NamedPipeConnection) (os : Win32)
    (r : Option NamedPipeConnection × NamedPipeConnection)
    (h : c.acceptSync fatal os = some r) :
    (r.2.readFD = c.readFD ∨ r.2.readFD = INVALID_HANDLE_VALUE) ∧
    ∀ new, r.1 = some new → new.readFD = c.readFD := by
  simp only [NamedPipeConnection.acceptSync] at h
  split_ifs at h with hs hres hpc
  · rw [← Option.some.inj h]
    exact ⟨Or.inl rfl, fun new hn => absurd hn (by simp)⟩
  · rw [← Option.some.inj h]
    exact ⟨Or.inl rfl, fun new hn => absurd hn (by simp)⟩
  · cases hc : NamedPipeConnection.close fatal
        { c with calls := c.calls ++ [Call.GetOverlappedResult c.readFD] } with
    | none =>
      rw [hc] at h
      exact absurd h (by simp)
    | some c2 =>
      rw [hc] at h
      rw [← Option.some.inj h]
      have h1 := close_readFD fatal _ c2 hc
      exact ⟨h1, fun new hn => absurd hn (by simp)⟩
  · split at h
    · exact absurd h (by simp)
    · rename_i new2 hnew
      rw [← Option.some.inj h]
      refine ⟨Or.inr rfl, fun new hn => ?_⟩
      rw [← Option.some.inj hn]
      have h1 := initAIORead_readFD fatal _ new2 os hnew
      exact h1

/-- The handle `readNB` leaves is the handle the connection had or `INVALID_HANDLE_VALUE`. -/
theorem readNB_readFD (fatal : Bool) (c c' : NamedPipeConnection) (bytes : Nat) (os : Win32)
    (h : c.readNB fatal bytes os = some c') :
    c'.readFD = c.readFD ∨ c'.readFD = INVALID_HANDLE_VALUE := by
  simp only [NamedPipeConnection.readNB] at h
  split_ifs at h with hs hfail
  · rw [← Option.some.inj h]
    exact Or.inl rfl
  · have h1 := close_readFD fatal _ c' h
    exact h1
  · rw [← Option.some.inj h]
    exact Or.inl rfl

/-- The handle `readSync` leaves is the handle the connection had or
`INVALID_HANDLE_VALUE`. -/
theorem readSync_readFD (fatal : Bool) (c : NamedPipeConnection) (bytes : Nat) (os : Win32)
    (r : Int × NamedPipeConnection) (h : c.readSync fatal bytes os = some r) :
    r.2.readFD = c.readFD ∨ r.2.readFD = INVALID_HANDLE_VALUE := by
  simp only [NamedPipeConnection.readSync] at h
  split_ifs at h with hfd hres hpc
  · rw [← Option.some.inj h]
    exact Or.inl rfl
  · rw [← Option.some.inj h]
    exact Or.inl rfl
  · cases hc : NamedPipeConnection.close fatal
        { c with calls := c.calls ++ [Call.GetOverlappedResult c.readFD] } with
    | none =>
      rw [hc] at h
      exact absurd h (by simp)
    | some c2 =>
      rw [hc] at h
      rw [← Option.some.inj h]
      have h1 := close_readFD fatal _ c2 hc
      exact h1
  · rw [← Option.some.inj h]
    exact Or.inl rfl

/-- The method `write` does not touch the handle. -/
theorem write_readFD (c : NamedPipeConnection) (bytes : Nat) (os : Win32) :
    (c.write bytes os).2.readFD = c.readFD := by
  simp only [NamedPipeConnection.write]
  split_ifs <;> rfl

/-- C21 as amended: the assertion in `close()`, that the handle is not null, never fails when
the handle of the freshly constructed connection, which the constructor does not initialise,
is not null. In every state reachable from such a connection through `connect`, `listen`,
`acceptNB`, `acceptSync`, `readNB`, `readSync`, `write` and `close`, the operating system
returning no null handle, the handle is not null: `close()` does not abort, also where a
failed assertion is fatal, and when the state is `Connected` or `Listening` it ends in
`Closed` with exactly one notification. The handle need not be valid: it is the value the
constructor left after `listen()` alone, and `INVALID_HANDLE_VALUE` on the listening
connection after a successful `acceptSync()`. -/
theorem reachable_handle_not_null (fatal : Bool) (readFD : Int) (c : NamedPipeConnection)
    (hinit : readFD ≠ 0) (h : Reachable fatal (create readFD) c) :
    c.readFD ≠ 0 ∧
    (∃ c', c.close true = some c') ∧
    (c.state = State.STATE_CONNECTED ∨ c.state = State.STATE_LISTENING →
      ∃ c', c.close true = some c' ∧ c'.state = State.STATE_CLOSED ∧
        c'.readFD = INVALID_HANDLE_VALUE ∧ c'.fired = c.fired ++ [State.STATE_CLOSED]) := by
  have hinv : (-1 : Int) ≠ 0 := by decide
  have hne : c.readFD ≠ 0 := by
    induction h with
    | start => exact hinit
    | connect c os r _ hos hr ih =>
      rcases connect_readFD fatal c os r hr with h | h <;> rw [h]
      · exact ih
      · exact hos
    | listen c os r _ hr ih =>
      rw [listen_readFD fatal c os r hr]
      exact ih
    | acceptNB c os c' _ hos hr _ =>
      rcases acceptNB_readFD fatal c c' os hr with h | h <;> rw [h]
      · exact hos
      · exact hinv
    | acceptSync c os r _ hr ih =>
      rcases (acceptSync_readFD fatal c os r hr).1 with h | h <;> rw [h]
      · exact ih
      · exact hinv
    | accepted c os new c' _ hr ih =>
      rw [(acceptSync_readFD fatal c os _ hr).2 new rfl]
      exact ih
    | readNB c bytes os c' _ hr ih =>
      rcases readNB_readFD fatal c c' bytes os hr with h | h <;> rw [h]
      · exact ih
      · exact hinv
    | readSync c bytes os r _ hr ih =>
      rcases readSync_readFD fatal c bytes os r hr with h | h <;> rw [h]
      · exact ih
      · exact hinv
    | write c bytes os _ ih =>
      rw [write_readFD]
      exact ih
    | close c c' _ hr ih =>
      rcases close_readFD fatal c c' hr with h | h <;> rw [h]
      · exact ih
      · exact hinv
  have hclose : c.state = State.STATE_CONNECTED ∨ c.state = State.STATE_LISTENING →
      ∃ c', c.close true = some c' ∧ c'.state = State.STATE_CLOSED ∧
        c'.readFD = INVALID_HANDLE_VALUE ∧ c'.fired = c.fired ++ [State.STATE_CLOSED] := by
    intro hopen
    obtain ⟨c', h1, h2, h3, _, h5, _⟩ := close_of_open true c hopen (Or.inr hne)
    exact ⟨c', h1, h2, h3, h5⟩
  refine ⟨hne, ?_, hclose⟩
  by_cases hopen : c.state = State.STATE_CONNECTED ∨ c.state = State.STATE_LISTENING
  · obtain ⟨c', h1, _⟩ := hclose hopen
    exact ⟨c', h1⟩
  · exact ⟨c, close_of_not_open true c hopen⟩

theorem reachable_handle_not_null_witness :
    (7 : Int) ≠ 0 ∧ Reachable true (create 7) movedListener ∧
    movedListener.readFD ≠ 0 ∧ ∃ c', movedListener.close true = some c' :=
  ⟨by decide, movedListener_reachable true 7,
    (reachable_handle_not_null true 7 movedListener (by decide)
      (movedListener_reachable true 7)).1,
    (reachable_handle_not_null true 7 movedListener (by decide)
      (movedListener_reachable true 7)).2.1⟩

end eq.net
